import Mathlib

/-!
# Verification of the OCI MCP server's dispatch / envelope core

A shallow embedding of the `oci-mcp-server` repository (TypeScript) in Lean 4.

The embedding covers:

* the JavaScript truthiness-based helper idioms (`x || default`) used throughout
  the source (`JsHelpers` section);
* the error classifier `OCIClientManager.handleOCIError` and the pagination
  helper `OCIClientManager.getAllPages` from `src/utils/oci-client.ts`;
* the four domain dispatchers (`ComputeManager`, `StorageNetworkManager`,
  `DatabaseAnalyticsManager`, `MonitoringSecurityManager`): their
  zod-validated input unions (modelled as Lean sum/record types), the
  per-branch backend request construction, the response envelopes, and the
  `execute` catch-all boundary;
* the top-level MCP server's `CallToolRequestSchema` handler (the full,
  four-tool server) and the simplified single-tool server's `handleOCIManage`.

Backends are modelled as records of functions ("oracles"), one per SDK client
method used by the source; every dispatcher additionally returns the ordered
trace of backend calls it performed, so that "no backend call is made" and
"one creation call followed by one call per rule" are provable statements.
Promise rejection / `throw` is modelled with `Except ErrJS`; the `execute`
boundary catches and maps to a failure envelope exactly as the source does.
-/

namespace OCIMCp

/-! ## JavaScript-style helpers

The source leans on `x || d` (truthiness defaulting) and `!x` (falsiness
checks). `none` models `undefined`; the empty string, `0` and `false` are
falsy exactly as in JavaScript. -/

/-- Truthiness of an optional string: `undefined` and `""` are falsy. -/
def jsTruthyS : Option String → Bool
  | some s => s ≠ ""
  | none => false

/-- Truthiness of an optional number: `undefined` and `0` are falsy. -/
def jsTruthyN : Option Nat → Bool
  | some n => n ≠ 0
  | none => false

/-- JavaScript `a || d` for an optional string with a mandatory default. -/
def jsOr (a : Option String) (d : String) : String :=
  if jsTruthyS a then a.getD "" else d

/-- JavaScript `a || b` for two optional strings (result may still be `undefined`). -/
def jsOrO (a b : Option String) : Option String :=
  if jsTruthyS a then a else b

/-- JavaScript `a || d` for an optional number with a mandatory default. -/
def jsOrN (a : Option Nat) (d : Nat) : Nat :=
  if jsTruthyN a then a.getD 0 else d

/-- JavaScript `a || d` for an optional boolean with a mandatory boolean default:
`undefined || d = d`, `false || d = d`, `true || d = true`. -/
def jsOrB (a : Option Bool) (d : Bool) : Bool :=
  match a with
  | some true => true
  | _ => d

/-! ## Error values and the Error Classifier (`src/utils/oci-client.ts`)

A thrown/rejected JavaScript error value, as inspected by
`OCIClientManager.handleOCIError`: it may carry an HTTP `statusCode`, a
provider `code`, a `message`, and always has a string form (`toString()`). -/

structure ErrJS where
  statusCode : Option Nat := none
  code : Option String := none
  message : Option String := none
  str : String := ""
deriving DecidableEq, Repr

/-- The value `new Error(m)`: no statusCode, no code, message `m`,
`toString()` = `"Error: " ++ m`. Used for every precondition `throw` in the
dispatchers. -/
def throwErr (m : String) : ErrJS :=
  { message := some m, str := "Error: " ++ m }

/-- Source `OCIClientManager.handleOCIError` (oci-client.ts lines 154-164), verbatim:
statusCode branch first, then code branch, else the generic branch. -/
def handleOCIError (e : ErrJS) : String :=
  if jsTruthyN e.statusCode then
    "OCI API Error (" ++ toString (e.statusCode.getD 0) ++ "): " ++ jsOr e.message "Unknown error"
  else if jsTruthyS e.code then
    "OCI Error (" ++ e.code.getD "" ++ "): " ++ jsOr e.message "Unknown error"
  else
    "OCI Error: " ++ jsOr e.message e.str

/-! ## Resource records and response envelopes

Resource records are opaque pass-through values; the source only ever reads
the handful of fields modelled below (for messages and `operationId`). The
three TypeScript response shapes (`OCIResourceListResponse`,
`OCIResourceDetailResponse`, `OCIOperationResponse`) are modelled by a single
record with optional fields; an omitted field is `none`. -/

structure OCIRec where
  id : String := ""
  displayName : String := ""
  name : String := ""
  dbName : String := ""
  value : String := ""
  objectName : String := ""
  contentLength : Nat := 0
  contentType : String := ""
  etag : String := ""
  lastModified : String := ""
deriving DecidableEq, Repr

/-- The `data` field of an envelope: a list of records (list envelopes) or a
single record (detail/operation envelopes). -/
inductive EnvData where
  | items (xs : List OCIRec)
  | one (r : OCIRec)
deriving DecidableEq, Repr

structure Envelope where
  success : Bool
  data : Option EnvData := none
  count : Option Nat := none
  message : Option String := none
  operationId : Option String := none
  nextPage : Option String := none
deriving DecidableEq, Repr

/-- The failure envelope built by every dispatcher's `execute` catch block:
`{ success: false, message: this.ociClient.handleOCIError(error) }`. -/
def failEnv (e : ErrJS) : Envelope :=
  { success := false, message := some (handleOCIError e) }

/-! ## Client configuration (`OCIClientManager`) -/

structure AuthCfg where
  tenancyId : String
  compartmentId : Option String := none
  region : String := ""
deriving DecidableEq, Repr

/-- Source `getDefaultCompartmentId(): this.authConfig.compartmentId || this.authConfig.tenancyId`. -/
def defaultCompartmentId (c : AuthCfg) : String :=
  jsOr c.compartmentId c.tenancyId

/-! ## Pagination helper (`OCIClientManager.getAllPages`, oci-client.ts 129-151)

The backend is a function from the requested page token (`none` on the first
iteration, mirroring the request without a `page` property) to the fetched
page `{ items, opcNextPage? }`. The source's `do ... while (nextPage)` loop is
modelled with explicit fuel, since nothing in the source bounds the number of
iterations when pages are empty; running out of fuel yields `none`
(divergence). The result carries the accumulated items and the number of
backend calls performed. -/

def getAllPagesAux {α : Type} (backend : Option String → List α × Option String)
    (maxItems : Nat) : Nat → List α → Option String → Option (List α × Nat)
  | 0, _, _ => none
  | fuel + 1, acc, page =>
    let fetched := backend page
    let acc' := acc ++ fetched.1
    -- Safety check to prevent infinite loops: `if (allItems.length >= maxItems) break;`
    if maxItems ≤ acc'.length then some (acc', 1)
    else
      -- `while (nextPage)`: an absent or empty token ends the loop
      match fetched.2 with
      | none => some (acc', 1)
      | some t =>
        if t = "" then some (acc', 1)
        else
          match getAllPagesAux backend maxItems fuel acc' (some t) with
          | none => none
          | some (res, calls) => some (res, calls + 1)

/-- Source `getAllPages(apiCall, request, maxItems = 1000)`: starts with no
accumulated items and no page token; `maxItems + 1` iterations of fuel is
shown sufficient whenever every page is non-empty. -/
def getAllPages {α : Type} (backend : Option String → List α × Option String)
    (maxItems : Nat := 1000) : Option (List α × Nat) :=
  getAllPagesAux backend maxItems (maxItems + 1) [] none

end OCIMCp

namespace OCIMCp

/-! ## Database & Analytics domain (`src/tools/database-analytics.ts`)

Input types mirror the zod union `DatabaseAnalyticsToolInputSchema` after
validation: one constructor per `action` variant, each carrying exactly its
schema's fields. -/

inductive DbListType where
  | dbSystems | databases | autonomousDatabases | dbHomes
  | dbNodes | backups | dataSafeTargets | analyticsInstances
deriving DecidableEq, Repr

/-- The TypeScript string for a list resource type (used in thrown messages). -/
def DbListType.str : DbListType → String
  | .dbSystems => "db-systems"
  | .databases => "databases"
  | .autonomousDatabases => "autonomous-databases"
  | .dbHomes => "db-homes"
  | .dbNodes => "db-nodes"
  | .backups => "backups"
  | .dataSafeTargets => "data-safe-targets"
  | .analyticsInstances => "analytics-instances"

structure DbListInput where
  resourceType : DbListType
  compartmentId : Option String := none
  dbSystemId : Option String := none
  dbHomeId : Option String := none
  limit : Option Nat := none
  displayName : Option String := none
  lifecycleState : Option String := none
deriving DecidableEq, Repr

inductive DbGetType where
  | dbSystem | database | autonomousDatabase | dbHome
  | backup | dataSafeTarget | analyticsInstance
deriving DecidableEq, Repr

def DbGetType.str : DbGetType → String
  | .dbSystem => "db-system"
  | .database => "database"
  | .autonomousDatabase => "autonomous-database"
  | .dbHome => "db-home"
  | .backup => "backup"
  | .dataSafeTarget => "data-safe-target"
  | .analyticsInstance => "analytics-instance"

inductive DbCreateType where
  | autonomousDatabase | database | backup
deriving DecidableEq, Repr

def DbCreateType.str : DbCreateType → String
  | .autonomousDatabase => "autonomous-database"
  | .database => "database"
  | .backup => "backup"

/-- The autonomous-database variant of the create `data` union. -/
structure AdbCreateData where
  compartmentId : String
  dbName : String
  cpuCoreCount : Nat
  dataStorageSizeInTBs : Nat
  adminPassword : String
  displayName : Option String := none
  dbVersion : Option String := none
  dbWorkload : Option String := none
  isAutoScalingEnabled : Option Bool := none
  isFreeTier : Option Bool := none
  licenseModel : Option String := none
  subnetId : Option String := none
  nsgIds : Option (List String) := none
deriving DecidableEq, Repr

/-- The regular-database variant of the create `data` union. -/
structure RegDbCreateData where
  dbSystemId : String
  dbName : String
  adminPassword : String
  dbVersion : Option String := none
  characterSet : Option String := none
  ncharacterSet : Option String := none
  pdbName : Option String := none
deriving DecidableEq, Repr

/-- The backup variant of the create `data` union. -/
structure BackupCreateData where
  databaseId : String
  displayName : String
  type : Option String := none
deriving DecidableEq, Repr

/-- The create `data` payload: a structural union; the source reads it through
`as any` casts, so every field access below is an `Option`-valued accessor
(an absent field is `undefined`). -/
inductive DbCreateData where
  | adb (d : AdbCreateData)
  | reg (d : RegDbCreateData)
  | backup (d : BackupCreateData)
deriving DecidableEq, Repr

namespace DbCreateData

def compartmentId : DbCreateData → Option String
  | .adb d => some d.compartmentId
  | _ => none

def dbName : DbCreateData → Option String
  | .adb d => some d.dbName
  | .reg d => some d.dbName
  | _ => none

def cpuCoreCount : DbCreateData → Option Nat
  | .adb d => some d.cpuCoreCount
  | _ => none

def dataStorageSizeInTBs : DbCreateData → Option Nat
  | .adb d => some d.dataStorageSizeInTBs
  | _ => none

def adminPassword : DbCreateData → Option String
  | .adb d => some d.adminPassword
  | .reg d => some d.adminPassword
  | _ => none

def displayName : DbCreateData → Option String
  | .adb d => d.displayName
  | .backup d => some d.displayName
  | _ => none

def dbVersion : DbCreateData → Option String
  | .adb d => d.dbVersion
  | .reg d => d.dbVersion
  | _ => none

def dbWorkload : DbCreateData → Option String
  | .adb d => d.dbWorkload
  | _ => none

def isAutoScalingEnabled : DbCreateData → Option Bool
  | .adb d => d.isAutoScalingEnabled
  | _ => none

def isFreeTier : DbCreateData → Option Bool
  | .adb d => d.isFreeTier
  | _ => none

def licenseModel : DbCreateData → Option String
  | .adb d => d.licenseModel
  | _ => none

def subnetId : DbCreateData → Option String
  | .adb d => d.subnetId
  | _ => none

def nsgIds : DbCreateData → Option (List String)
  | .adb d => d.nsgIds
  | _ => none

def characterSet : DbCreateData → Option String
  | .reg d => d.characterSet
  | _ => none

def ncharacterSet : DbCreateData → Option String
  | .reg d => d.ncharacterSet
  | _ => none

def pdbName : DbCreateData → Option String
  | .reg d => d.pdbName
  | _ => none

def dbSystemId : DbCreateData → Option String
  | .reg d => some d.dbSystemId
  | _ => none

def databaseId : DbCreateData → Option String
  | .backup d => some d.databaseId
  | _ => none

def backupType : DbCreateData → Option String
  | .backup d => d.type
  | _ => none

end DbCreateData

inductive DbManageAction where
  | startDatabase | stopDatabase | restartDatabase
  | startAutonomousDb | stopAutonomousDb | scaleAutonomousDb
  | restoreDatabase | cloneDatabase | deleteBackup
deriving DecidableEq, Repr

def DbManageAction.str : DbManageAction → String
  | .startDatabase => "start-database"
  | .stopDatabase => "stop-database"
  | .restartDatabase => "restart-database"
  | .startAutonomousDb => "start-autonomous-db"
  | .stopAutonomousDb => "stop-autonomous-db"
  | .scaleAutonomousDb => "scale-autonomous-db"
  | .restoreDatabase => "restore-database"
  | .cloneDatabase => "clone-database"
  | .deleteBackup => "delete-backup"

inductive DbManageType where
  | database | autonomousDatabase | backup
deriving DecidableEq, Repr

structure DbManageInput where
  action : DbManageAction
  resourceType : DbManageType
  resourceId : String
  cpuCoreCount : Option Nat := none
  dataStorageSizeInTBs : Option Nat := none
  timestamp : Option String := none
  backupId : Option String := none
  cloneName : Option String := none
  targetCompartmentId : Option String := none
deriving DecidableEq, Repr

/-- The validated `DatabaseAnalyticsToolInput` union. -/
inductive DbInput where
  | list (i : DbListInput)
  | get (resourceType : DbGetType) (resourceId : String)
  | create (resourceType : DbCreateType) (data : DbCreateData)
  | manage (i : DbManageInput)
deriving DecidableEq, Repr

/-! Backend request shapes constructed by the dispatcher. Fields not set by a
given branch stay `none`, mirroring an object literal without that property. -/

structure DbListReq where
  compartmentId : String
  limit : Nat := 50
  displayName : Option String := none
  lifecycleState : Option String := none
  dbSystemId : Option String := none
  dbHomeId : Option String := none
deriving DecidableEq, Repr

/-- Request `createAutonomousDatabaseDetails` as the source constructs it
(database-analytics.ts lines 314-330); fields read through `as any` casts are
`Option`-valued, defaulted fields are concrete. -/
structure CreateAdbDetails where
  compartmentId : Option String
  dbName : Option String
  cpuCoreCount : Option Nat
  dataStorageSizeInTBs : Option Nat
  adminPassword : Option String
  displayName : Option String
  dbVersion : Option String
  dbWorkload : String
  isAutoScalingEnabled : Bool
  isFreeTier : Bool
  licenseModel : String
  subnetId : Option String
  nsgIds : Option (List String)
deriving DecidableEq, Repr

/-- The backend request constructed for `create`/`autonomous-database`. -/
def mkCreateAdbDetails (d : DbCreateData) : CreateAdbDetails :=
  { compartmentId := d.compartmentId
    dbName := d.dbName
    cpuCoreCount := d.cpuCoreCount
    dataStorageSizeInTBs := d.dataStorageSizeInTBs
    adminPassword := d.adminPassword
    displayName := jsOrO d.displayName d.dbName
    dbVersion := d.dbVersion
    dbWorkload := jsOr d.dbWorkload "OLTP"
    isAutoScalingEnabled := jsOrB d.isAutoScalingEnabled false
    isFreeTier := jsOrB d.isFreeTier false
    licenseModel := jsOr d.licenseModel "LICENSE_INCLUDED"
    subnetId := d.subnetId
    nsgIds := d.nsgIds }

/-- Request `createDatabaseDetails` plus the outer `dbHomeId` field
(source notes "This should be dbHomeId in practice" and passes `dbSystemId`). -/
structure CreateDbReq where
  dbName : Option String
  adminPassword : Option String
  dbVersion : Option String
  characterSet : String
  ncharacterSet : String
  pdbName : Option String
  dbHomeId : Option String
deriving DecidableEq, Repr

def mkCreateDbReq (d : DbCreateData) : CreateDbReq :=
  { dbName := d.dbName
    adminPassword := d.adminPassword
    dbVersion := d.dbVersion
    characterSet := jsOr d.characterSet "AL32UTF8"
    ncharacterSet := jsOr d.ncharacterSet "AL16UTF16"
    pdbName := d.pdbName
    dbHomeId := d.dbSystemId }

structure CreateBackupDetails where
  databaseId : Option String
  displayName : Option String
  type : String
deriving DecidableEq, Repr

def mkCreateBackupDetails (d : DbCreateData) : CreateBackupDetails :=
  { databaseId := d.databaseId
    displayName := d.displayName
    type := jsOr d.backupType "INCREMENTAL" }

structure ScaleAdbDetails where
  cpuCoreCount : Option Nat
  dataStorageSizeInTBs : Option Nat
deriving DecidableEq, Repr

structure CloneAdbDetails where
  sourceId : String
  cloneType : String
  displayName : String
  compartmentId : String
deriving DecidableEq, Repr

/-- One constructor per `databaseClient` method invocation, carrying the
request the source passes. -/
inductive DbCall where
  | listDbSystems (req : DbListReq)
  | listAutonomousDatabases (req : DbListReq)
  | listDatabases (req : DbListReq)
  | listDbHomes (req : DbListReq)
  | listDbNodes (req : DbListReq)
  | listBackups (req : DbListReq)
  | getDbSystem (dbSystemId : String)
  | getAutonomousDatabase (autonomousDatabaseId : String)
  | getDatabase (databaseId : String)
  | getDbHome (dbHomeId : String)
  | getBackup (backupId : String)
  | createAutonomousDatabase (details : CreateAdbDetails)
  | createDatabase (req : CreateDbReq)
  | createBackup (details : CreateBackupDetails)
  | startAutonomousDatabase (autonomousDatabaseId : String)
  | stopAutonomousDatabase (autonomousDatabaseId : String)
  | updateAutonomousDatabase (autonomousDatabaseId : String) (details : ScaleAdbDetails)
  | createAutonomousDatabaseClone (details : CloneAdbDetails)
  | deleteBackup (backupId : String)
deriving DecidableEq, Repr

/-- The database backend collaborator: one oracle per SDK method used. -/
structure DbBackend where
  listDbSystems : DbListReq → Except ErrJS (List OCIRec) := fun _ => .error {}
  listAutonomousDatabases : DbListReq → Except ErrJS (List OCIRec) := fun _ => .error {}
  listDatabases : DbListReq → Except ErrJS (List OCIRec) := fun _ => .error {}
  listDbHomes : DbListReq → Except ErrJS (List OCIRec) := fun _ => .error {}
  listDbNodes : DbListReq → Except ErrJS (List OCIRec) := fun _ => .error {}
  listBackups : DbListReq → Except ErrJS (List OCIRec) := fun _ => .error {}
  getDbSystem : String → Except ErrJS OCIRec := fun _ => .error {}
  getAutonomousDatabase : String → Except ErrJS OCIRec := fun _ => .error {}
  getDatabase : String → Except ErrJS OCIRec := fun _ => .error {}
  getDbHome : String → Except ErrJS OCIRec := fun _ => .error {}
  getBackup : String → Except ErrJS OCIRec := fun _ => .error {}
  createAutonomousDatabase : CreateAdbDetails → Except ErrJS OCIRec := fun _ => .error {}
  createDatabase : CreateDbReq → Except ErrJS OCIRec := fun _ => .error {}
  createBackup : CreateBackupDetails → Except ErrJS OCIRec := fun _ => .error {}
  startAutonomousDatabase : String → Except ErrJS OCIRec := fun _ => .error {}
  stopAutonomousDatabase : String → Except ErrJS OCIRec := fun _ => .error {}
  updateAutonomousDatabase : String → ScaleAdbDetails → Except ErrJS OCIRec := fun _ _ => .error {}
  createAutonomousDatabaseClone : CloneAdbDetails → Except ErrJS OCIRec := fun _ => .error {}
  deleteBackup : String → Except ErrJS Unit := fun _ => .error {}

/-- Source `DatabaseAnalyticsManager.listResources` (lines 134-246). Returns the
would-be resolved/thrown value plus the ordered backend-call trace. -/
def dbListResources (cfg : AuthCfg) (b : DbBackend) (i : DbListInput) :
    Except ErrJS Envelope × List DbCall :=
  let compartmentId := jsOr i.compartmentId (defaultCompartmentId cfg)
  match i.resourceType with
  | .dbSystems =>
    let req : DbListReq := { compartmentId := compartmentId, limit := jsOrN i.limit 50,
                             displayName := i.displayName, lifecycleState := i.lifecycleState }
    (match b.listDbSystems req with
     | .ok items =>
       (.ok { success := true, data := some (.items items), count := some items.length,
              message := some ("Found " ++ toString items.length ++ " DB systems") },
        [.listDbSystems req])
     | .error e => (.error e, [.listDbSystems req]))
  | .autonomousDatabases =>
    let req : DbListReq := { compartmentId := compartmentId, limit := jsOrN i.limit 50,
                             displayName := i.displayName, lifecycleState := i.lifecycleState }
    (match b.listAutonomousDatabases req with
     | .ok items =>
       (.ok { success := true, data := some (.items items), count := some items.length,
              message := some ("Found " ++ toString items.length ++ " autonomous databases") },
        [.listAutonomousDatabases req])
     | .error e => (.error e, [.listAutonomousDatabases req]))
  | .databases =>
    if !jsTruthyS i.dbSystemId && !jsTruthyS i.dbHomeId then
      (.error (throwErr "Either dbSystemId or dbHomeId is required for listing databases"), [])
    else
      let req : DbListReq :=
        if jsTruthyS i.dbSystemId then
          { compartmentId := compartmentId, dbSystemId := i.dbSystemId, limit := jsOrN i.limit 50 }
        else
          { compartmentId := compartmentId, dbHomeId := i.dbHomeId, limit := jsOrN i.limit 50 }
      (match b.listDatabases req with
       | .ok items =>
         (.ok { success := true, data := some (.items items), count := some items.length,
                message := some ("Found " ++ toString items.length ++ " databases") },
          [.listDatabases req])
       | .error e => (.error e, [.listDatabases req]))
  | .dbHomes =>
    if !jsTruthyS i.dbSystemId then
      (.error (throwErr "dbSystemId is required for listing DB homes"), [])
    else
      let req : DbListReq := { compartmentId := compartmentId, dbSystemId := i.dbSystemId,
                               limit := jsOrN i.limit 50, displayName := i.displayName,
                               lifecycleState := i.lifecycleState }
      (match b.listDbHomes req with
       | .ok items =>
         (.ok { success := true, data := some (.items items), count := some items.length,
                message := some ("Found " ++ toString items.length ++ " DB homes") },
          [.listDbHomes req])
       | .error e => (.error e, [.listDbHomes req]))
  | .dbNodes =>
    if !jsTruthyS i.dbSystemId then
      (.error (throwErr "dbSystemId is required for listing DB nodes"), [])
    else
      let req : DbListReq := { compartmentId := compartmentId, dbSystemId := i.dbSystemId,
                               limit := jsOrN i.limit 50, lifecycleState := i.lifecycleState }
      (match b.listDbNodes req with
       | .ok items =>
         (.ok { success := true, data := some (.items items), count := some items.length,
                message := some ("Found " ++ toString items.length ++ " DB nodes") },
          [.listDbNodes req])
       | .error e => (.error e, [.listDbNodes req]))
  | .backups =>
    let req : DbListReq := { compartmentId := compartmentId, limit := jsOrN i.limit 50,
                             lifecycleState := i.lifecycleState }
    (match b.listBackups req with
     | .ok items =>
       (.ok { success := true, data := some (.items items), count := some items.length,
              message := some ("Found " ++ toString items.length ++ " database backups") },
        [.listBackups req])
     | .error e => (.error e, [.listBackups req]))
  | t => (.error (throwErr ("Unsupported resource type: " ++ t.str)), [])

/-- Source `DatabaseAnalyticsManager.getResource` (lines 248-308). -/
def dbGetResource (b : DbBackend) (t : DbGetType) (resourceId : String) :
    Except ErrJS Envelope × List DbCall :=
  match t with
  | .dbSystem =>
    (match b.getDbSystem resourceId with
     | .ok r =>
       (.ok { success := true, data := some (.one r),
              message := some ("Retrieved DB system details for " ++ resourceId) },
        [.getDbSystem resourceId])
     | .error e => (.error e, [.getDbSystem resourceId]))
  | .autonomousDatabase =>
    (match b.getAutonomousDatabase resourceId with
     | .ok r =>
       (.ok { success := true, data := some (.one r),
              message := some ("Retrieved autonomous database details for " ++ resourceId) },
        [.getAutonomousDatabase resourceId])
     | .error e => (.error e, [.getAutonomousDatabase resourceId]))
  | .database =>
    (match b.getDatabase resourceId with
     | .ok r =>
       (.ok { success := true, data := some (.one r),
              message := some ("Retrieved database details for " ++ resourceId) },
        [.getDatabase resourceId])
     | .error e => (.error e, [.getDatabase resourceId]))
  | .dbHome =>
    (match b.getDbHome resourceId with
     | .ok r =>
       (.ok { success := true, data := some (.one r),
              message := some ("Retrieved DB home details for " ++ resourceId) },
        [.getDbHome resourceId])
     | .error e => (.error e, [.getDbHome resourceId]))
  | .backup =>
    (match b.getBackup resourceId with
     | .ok r =>
       (.ok { success := true, data := some (.one r),
              message := some ("Retrieved backup details for " ++ resourceId) },
        [.getBackup resourceId])
     | .error e => (.error e, [.getBackup resourceId]))
  | t' => (.error (throwErr ("Unsupported resource type: " ++ t'.str)), [])

/-- Source `DatabaseAnalyticsManager.createResource` (lines 310-386). -/
def dbCreateResource (b : DbBackend) (t : DbCreateType) (d : DbCreateData) :
    Except ErrJS Envelope × List DbCall :=
  match t with
  | .autonomousDatabase =>
    let details := mkCreateAdbDetails d
    (match b.createAutonomousDatabase details with
     | .ok r =>
       (.ok { success := true, data := some (.one r),
              message := some ("Autonomous database creation initiated: " ++ r.displayName),
              operationId := some r.id },
        [.createAutonomousDatabase details])
     | .error e => (.error e, [.createAutonomousDatabase details]))
  | .database =>
    let req := mkCreateDbReq d
    (match b.createDatabase req with
     | .ok r =>
       (.ok { success := true, data := some (.one r),
              message := some ("Database creation initiated: " ++ r.dbName),
              operationId := some r.id },
        [.createDatabase req])
     | .error e => (.error e, [.createDatabase req]))
  | .backup =>
    let details := mkCreateBackupDetails d
    (match b.createBackup details with
     | .ok r =>
       (.ok { success := true, data := some (.one r),
              message := some ("Database backup creation initiated: " ++ r.displayName),
              operationId := some r.id },
        [.createBackup details])
     | .error e => (.error e, [.createBackup details]))

/-- Source `DatabaseAnalyticsManager.manageResource` (lines 388-478); `now` stands
for `Date.now()` in the clone-name default. -/
def dbManageResource (cfg : AuthCfg) (b : DbBackend) (now : Nat) (i : DbManageInput) :
    Except ErrJS Envelope × List DbCall :=
  match i.action with
  | .startAutonomousDb =>
    (match b.startAutonomousDatabase i.resourceId with
     | .ok r =>
       (.ok { success := true, data := some (.one r),
              message := some ("Autonomous database start initiated: " ++ i.resourceId),
              operationId := some i.resourceId },
        [.startAutonomousDatabase i.resourceId])
     | .error e => (.error e, [.startAutonomousDatabase i.resourceId]))
  | .stopAutonomousDb =>
    (match b.stopAutonomousDatabase i.resourceId with
     | .ok r =>
       (.ok { success := true, data := some (.one r),
              message := some ("Autonomous database stop initiated: " ++ i.resourceId),
              operationId := some i.resourceId },
        [.stopAutonomousDatabase i.resourceId])
     | .error e => (.error e, [.stopAutonomousDatabase i.resourceId]))
  | .scaleAutonomousDb =>
    if !jsTruthyN i.cpuCoreCount && !jsTruthyN i.dataStorageSizeInTBs then
      (.error (throwErr "Either cpuCoreCount or dataStorageSizeInTBs is required for scaling"), [])
    else
      let details : ScaleAdbDetails := { cpuCoreCount := i.cpuCoreCount,
                                         dataStorageSizeInTBs := i.dataStorageSizeInTBs }
      (match b.updateAutonomousDatabase i.resourceId details with
       | .ok r =>
         (.ok { success := true, data := some (.one r),
                message := some ("Autonomous database scaling initiated: " ++ i.resourceId),
                operationId := some i.resourceId },
          [.updateAutonomousDatabase i.resourceId details])
       | .error e => (.error e, [.updateAutonomousDatabase i.resourceId details]))
  | .cloneDatabase =>
    if i.resourceType = .autonomousDatabase then
      let details : CloneAdbDetails :=
        { sourceId := i.resourceId, cloneType := "FULL",
          displayName := jsOr i.cloneName ("clone-" ++ toString now),
          compartmentId := jsOr i.targetCompartmentId (defaultCompartmentId cfg) }
      (match b.createAutonomousDatabaseClone details with
       | .ok r =>
         (.ok { success := true, data := some (.one r),
                message := some ("Autonomous database clone initiated: " ++ r.displayName),
                operationId := some r.id },
          [.createAutonomousDatabaseClone details])
       | .error e => (.error e, [.createAutonomousDatabaseClone details]))
    else
      (.error (throwErr "Clone operation only supported for autonomous databases"), [])
  | .deleteBackup =>
    (match b.deleteBackup i.resourceId with
     | .ok _ =>
       (.ok { success := true,
              message := some ("Backup deletion initiated: " ++ i.resourceId),
              operationId := some i.resourceId },
        [.deleteBackup i.resourceId])
     | .error e => (.error e, [.deleteBackup i.resourceId]))
  | a => (.error (throwErr ("Unsupported management action: " ++ a.str)), [])

/-- Source `DatabaseAnalyticsManager.execute` (lines 103-132): routes on the action
discriminator and catches every thrown error, turning it into a
`{success: false, message: handleOCIError(e)}` envelope. Total by type:
the call always resolves. -/
def dbDispatch (cfg : AuthCfg) (b : DbBackend) (now : Nat) (input : DbInput) :
    Except ErrJS Envelope × List DbCall :=
  match input with
  | .list i => dbListResources cfg b i
  | .get t rid => dbGetResource b t rid
  | .create t d => dbCreateResource b t d
  | .manage i => dbManageResource cfg b now i

def dbExecute (cfg : AuthCfg) (b : DbBackend) (now : Nat) (input : DbInput) :
    Envelope × List DbCall :=
  match dbDispatch cfg b now input with
  | (.ok env, tr) => (env, tr)
  | (.error e, tr) => (failEnv e, tr)

end OCIMCp

namespace OCIMCp

/-! ## Compute domain (`src/tools/compute.ts`) -/

inductive CListType where
  | instances | images | shapes | volumes | volumeAttachments
deriving DecidableEq, Repr

def CListType.str : CListType → String
  | .instances => "instances"
  | .images => "images"
  | .shapes => "shapes"
  | .volumes => "volumes"
  | .volumeAttachments => "volume-attachments"

structure CListInput where
  resourceType : CListType
  compartmentId : Option String := none
  availabilityDomain : Option String := none
  limit : Option Nat := none
  displayName : Option String := none
  lifecycleState : Option String := none
deriving DecidableEq, Repr

inductive CGetType where
  | instance_ | image | volume | volumeAttachment
deriving DecidableEq, Repr

/-- Schema `CreateInstanceRequestSchema` (types/oci.ts lines 37-46). -/
structure CreateInstanceData where
  availabilityDomain : String
  compartmentId : String
  shape : String
  imageId : String
  displayName : Option String := none
  metadata : List (String × String) := []
  subnetId : Option String := none
  sshAuthorizedKeys : Option (List String) := none
deriving DecidableEq, Repr

/-- The volume variant of the compute create `data` union. -/
structure CreateVolumeData where
  availabilityDomain : String
  compartmentId : String
  sizeInGBs : Nat
  displayName : Option String := none
  volumeType : Option String := none
deriving DecidableEq, Repr

inductive CCreateData where
  | instRequest (d : CreateInstanceData)
  | vol (d : CreateVolumeData)
deriving DecidableEq, Repr

inductive CCreateType where
  | instance_ | volume
deriving DecidableEq, Repr

inductive CManageAction where
  | start | stop | reboot | terminate | attachVolume | detachVolume
deriving DecidableEq, Repr

def CManageAction.str : CManageAction → String
  | .start => "start"
  | .stop => "stop"
  | .reboot => "reboot"
  | .terminate => "terminate"
  | .attachVolume => "attach-volume"
  | .detachVolume => "detach-volume"

inductive CManageType where
  | instance_ | volume
deriving DecidableEq, Repr

structure CManageInput where
  action : CManageAction
  resourceType : CManageType
  resourceId : String
  instanceId : Option String := none
  volumeId : Option String := none
deriving DecidableEq, Repr

/-- The validated `ComputeToolInput` union. -/
inductive CInput where
  | list (i : CListInput)
  | get (resourceType : CGetType) (resourceId : String)
  | create (resourceType : CCreateType) (data : CCreateData)
  | manage (i : CManageInput)
deriving DecidableEq, Repr

structure CListReq where
  compartmentId : String
  availabilityDomain : Option String := none
  limit : Nat := 50
  displayName : Option String := none
  lifecycleState : Option String := none
deriving DecidableEq, Repr

/-- Request `launchInstanceDetails` (compute.ts lines 714-732); `now` models
`Date.now()` and `vnicSubnetId = none` models `createVnicDetails: undefined`. -/
structure LaunchInstanceDetails where
  availabilityDomain : Option String
  compartmentId : Option String
  shape : Option String
  displayName : String
  sourceType : String
  imageId : Option String
  vnicSubnetId : Option String
  metadata : List (String × String)
deriving DecidableEq, Repr

namespace CCreateData

def availabilityDomain : CCreateData → Option String
  | .instRequest d => some d.availabilityDomain
  | .vol d => some d.availabilityDomain

def compartmentId : CCreateData → Option String
  | .instRequest d => some d.compartmentId
  | .vol d => some d.compartmentId

def shape : CCreateData → Option String
  | .instRequest d => some d.shape
  | _ => none

def imageId : CCreateData → Option String
  | .instRequest d => some d.imageId
  | _ => none

def displayName : CCreateData → Option String
  | .instRequest d => d.displayName
  | .vol d => d.displayName

def metadata : CCreateData → List (String × String)
  | .instRequest d => d.metadata
  | _ => []

def subnetId : CCreateData → Option String
  | .instRequest d => d.subnetId
  | _ => none

def sshAuthorizedKeys : CCreateData → Option (List String)
  | .instRequest d => d.sshAuthorizedKeys
  | _ => none

def sizeInGBs : CCreateData → Option Nat
  | .vol d => some d.sizeInGBs
  | _ => none

def volumeType : CCreateData → Option String
  | .vol d => d.volumeType
  | _ => none

end CCreateData

def mkLaunchInstanceDetails (now : Nat) (d : CCreateData) : LaunchInstanceDetails :=
  { availabilityDomain := d.availabilityDomain
    compartmentId := d.compartmentId
    shape := d.shape
    displayName := jsOr d.displayName ("instance-" ++ toString now)
    sourceType := "image"
    imageId := d.imageId
    vnicSubnetId := if jsTruthyS d.subnetId then d.subnetId else none
    metadata := d.metadata ++
      (match d.sshAuthorizedKeys with
       | some ks => [("ssh_authorized_keys", String.intercalate "\n" ks)]
       | none => []) }

structure CreateVolumeDetails where
  availabilityDomain : Option String
  compartmentId : Option String
  sizeInGBs : Option Nat
  displayName : String
  volumeType : String
deriving DecidableEq, Repr

def mkCreateVolumeDetails (now : Nat) (d : CCreateData) : CreateVolumeDetails :=
  { availabilityDomain := d.availabilityDomain
    compartmentId := d.compartmentId
    sizeInGBs := d.sizeInGBs
    displayName := jsOr d.displayName ("volume-" ++ toString now)
    volumeType := jsOr d.volumeType "iscsi" }

structure AttachVolumeDetails where
  instanceId : Option String
  type : String
  volumeId : Option String
deriving DecidableEq, Repr

inductive CCall where
  | listInstances (req : CListReq)
  | listImages (req : CListReq)
  | listShapes (req : CListReq)
  | listVolumes (req : CListReq)
  | listVolumeAttachments (req : CListReq)
  | getInstance (instanceId : String)
  | getImage (imageId : String)
  | getVolume (volumeId : String)
  | getVolumeAttachment (volumeAttachmentId : String)
  | launchInstance (details : LaunchInstanceDetails)
  | createVolume (details : CreateVolumeDetails)
  | instanceAction (instanceId : String) (action : String)
  | terminateInstance (instanceId : String)
  | attachVolume (details : AttachVolumeDetails)
  | detachVolume (volumeAttachmentId : String)
deriving DecidableEq, Repr

structure CBackend where
  listInstances : CListReq → Except ErrJS (List OCIRec) := fun _ => .error {}
  listImages : CListReq → Except ErrJS (List OCIRec) := fun _ => .error {}
  listShapes : CListReq → Except ErrJS (List OCIRec) := fun _ => .error {}
  listVolumes : CListReq → Except ErrJS (List OCIRec) := fun _ => .error {}
  listVolumeAttachments : CListReq → Except ErrJS (List OCIRec) := fun _ => .error {}
  getInstance : String → Except ErrJS OCIRec := fun _ => .error {}
  getImage : String → Except ErrJS OCIRec := fun _ => .error {}
  getVolume : String → Except ErrJS OCIRec := fun _ => .error {}
  getVolumeAttachment : String → Except ErrJS OCIRec := fun _ => .error {}
  launchInstance : LaunchInstanceDetails → Except ErrJS OCIRec := fun _ => .error {}
  createVolume : CreateVolumeDetails → Except ErrJS OCIRec := fun _ => .error {}
  instanceAction : String → String → Except ErrJS OCIRec := fun _ _ => .error {}
  terminateInstance : String → Except ErrJS OCIRec := fun _ => .error {}
  attachVolume : AttachVolumeDetails → Except ErrJS OCIRec := fun _ => .error {}
  detachVolume : String → Except ErrJS Unit := fun _ => .error {}

/-- Source `ComputeManager.listResources` (compute.ts lines 571-657). -/
def cListResources (cfg : AuthCfg) (b : CBackend) (i : CListInput) :
    Except ErrJS Envelope × List CCall :=
  let compartmentId := jsOr i.compartmentId (defaultCompartmentId cfg)
  match i.resourceType with
  | .instances =>
    let req : CListReq := { compartmentId := compartmentId,
                            availabilityDomain := i.availabilityDomain,
                            limit := jsOrN i.limit 50, displayName := i.displayName,
                            lifecycleState := i.lifecycleState }
    (match b.listInstances req with
     | .ok items =>
       (.ok { success := true, data := some (.items items), count := some items.length,
              message := some ("Found " ++ toString items.length ++ " compute instances") },
        [.listInstances req])
     | .error e => (.error e, [.listInstances req]))
  | .images =>
    let req : CListReq := { compartmentId := compartmentId, limit := jsOrN i.limit 50,
                            lifecycleState := i.lifecycleState }
    (match b.listImages req with
     | .ok items =>
       (.ok { success := true, data := some (.items items), count := some items.length,
              message := some ("Found " ++ toString items.length ++ " compute images") },
        [.listImages req])
     | .error e => (.error e, [.listImages req]))
  | .shapes =>
    let req : CListReq := { compartmentId := compartmentId,
                            availabilityDomain := i.availabilityDomain,
                            limit := jsOrN i.limit 50 }
    (match b.listShapes req with
     | .ok items =>
       (.ok { success := true, data := some (.items items), count := some items.length,
              message := some ("Found " ++ toString items.length ++ " compute shapes") },
        [.listShapes req])
     | .error e => (.error e, [.listShapes req]))
  | .volumes =>
    let req : CListReq := { compartmentId := compartmentId,
                            availabilityDomain := i.availabilityDomain,
                            limit := jsOrN i.limit 50, displayName := i.displayName,
                            lifecycleState := i.lifecycleState }
    (match b.listVolumes req with
     | .ok items =>
       (.ok { success := true, data := some (.items items), count := some items.length,
              message := some ("Found " ++ toString items.length ++ " block volumes") },
        [.listVolumes req])
     | .error e => (.error e, [.listVolumes req]))
  | .volumeAttachments =>
    let req : CListReq := { compartmentId := compartmentId,
                            availabilityDomain := i.availabilityDomain,
                            limit := jsOrN i.limit 50 }
    (match b.listVolumeAttachments req with
     | .ok items =>
       (.ok { success := true, data := some (.items items), count := some items.length,
              message := some ("Found " ++ toString items.length ++ " volume attachments") },
        [.listVolumeAttachments req])
     | .error e => (.error e, [.listVolumeAttachments req]))

/-- Source `ComputeManager.getResource` (compute.ts lines 659-708). -/
def cGetResource (b : CBackend) (t : CGetType) (resourceId : String) :
    Except ErrJS Envelope × List CCall :=
  match t with
  | .instance_ =>
    (match b.getInstance resourceId with
     | .ok r =>
       (.ok { success := true, data := some (.one r),
              message := some ("Retrieved instance details for " ++ resourceId) },
        [.getInstance resourceId])
     | .error e => (.error e, [.getInstance resourceId]))
  | .image =>
    (match b.getImage resourceId with
     | .ok r =>
       (.ok { success := true, data := some (.one r),
              message := some ("Retrieved image details for " ++ resourceId) },
        [.getImage resourceId])
     | .error e => (.error e, [.getImage resourceId]))
  | .volume =>
    (match b.getVolume resourceId with
     | .ok r =>
       (.ok { success := true, data := some (.one r),
              message := some ("Retrieved volume details for " ++ resourceId) },
        [.getVolume resourceId])
     | .error e => (.error e, [.getVolume resourceId]))
  | .volumeAttachment =>
    (match b.getVolumeAttachment resourceId with
     | .ok r =>
       (.ok { success := true, data := some (.one r),
              message := some ("Retrieved volume attachment details for " ++ resourceId) },
        [.getVolumeAttachment resourceId])
     | .error e => (.error e, [.getVolumeAttachment resourceId]))

/-- Source `ComputeManager.createResource` (compute.ts lines 710-767). -/
def cCreateResource (b : CBackend) (now : Nat) (t : CCreateType) (d : CCreateData) :
    Except ErrJS Envelope × List CCall :=
  match t with
  | .instance_ =>
    let details := mkLaunchInstanceDetails now d
    (match b.launchInstance details with
     | .ok r =>
       (.ok { success := true, data := some (.one r),
              message := some ("Instance creation initiated: " ++ r.displayName),
              operationId := some r.id },
        [.launchInstance details])
     | .error e => (.error e, [.launchInstance details]))
  | .volume =>
    let details := mkCreateVolumeDetails now d
    (match b.createVolume details with
     | .ok r =>
       (.ok { success := true, data := some (.one r),
              message := some ("Volume creation initiated: " ++ r.displayName),
              operationId := some r.id },
        [.createVolume details])
     | .error e => (.error e, [.createVolume details]))

/-- Source `ComputeManager.manageInstance` (compute.ts lines 769-824). -/
def cManageInstance (b : CBackend) (i : CManageInput) :
    Except ErrJS Envelope × List CCall :=
  match i.action with
  | .start =>
    (match b.instanceAction i.resourceId "START" with
     | .ok r =>
       (.ok { success := true, data := some (.one r),
              message := some ("Instance start initiated: " ++ i.resourceId),
              operationId := some i.resourceId },
        [.instanceAction i.resourceId "START"])
     | .error e => (.error e, [.instanceAction i.resourceId "START"]))
  | .stop =>
    (match b.instanceAction i.resourceId "STOP" with
     | .ok r =>
       (.ok { success := true, data := some (.one r),
              message := some ("Instance stop initiated: " ++ i.resourceId),
              operationId := some i.resourceId },
        [.instanceAction i.resourceId "STOP"])
     | .error e => (.error e, [.instanceAction i.resourceId "STOP"]))
  | .reboot =>
    (match b.instanceAction i.resourceId "RESET" with
     | .ok r =>
       (.ok { success := true, data := some (.one r),
              message := some ("Instance reboot initiated: " ++ i.resourceId),
              operationId := some i.resourceId },
        [.instanceAction i.resourceId "RESET"])
     | .error e => (.error e, [.instanceAction i.resourceId "RESET"]))
  | .terminate =>
    (match b.terminateInstance i.resourceId with
     | .ok _ =>
       (.ok { success := true,
              message := some ("Instance termination initiated: " ++ i.resourceId),
              operationId := some i.resourceId },
        [.terminateInstance i.resourceId])
     | .error e => (.error e, [.terminateInstance i.resourceId]))
  | a => (.error (throwErr ("Unsupported instance action: " ++ a.str)), [])

/-- Source `ComputeManager.manageVolume` (compute.ts lines 826-863). -/
def cManageVolume (b : CBackend) (i : CManageInput) :
    Except ErrJS Envelope × List CCall :=
  match i.action with
  | .attachVolume =>
    if !jsTruthyS i.instanceId || !jsTruthyS i.volumeId then
      (.error (throwErr "Both instanceId and volumeId are required for volume attachment"), [])
    else
      let details : AttachVolumeDetails :=
        { instanceId := i.instanceId, type := "iscsi", volumeId := i.volumeId }
      (match b.attachVolume details with
       | .ok r =>
         (.ok { success := true, data := some (.one r),
                message := some ("Volume attachment initiated: " ++ i.volumeId.getD "" ++
                                 " to " ++ i.instanceId.getD ""),
                operationId := some r.id },
          [.attachVolume details])
       | .error e => (.error e, [.attachVolume details]))
  | .detachVolume =>
    (match b.detachVolume i.resourceId with
     | .ok _ =>
       (.ok { success := true,
              message := some ("Volume detachment initiated: " ++ i.resourceId),
              operationId := some i.resourceId },
        [.detachVolume i.resourceId])
     | .error e => (.error e, [.detachVolume i.resourceId]))
  | a => (.error (throwErr ("Unsupported volume action: " ++ a.str)), [])

/-- Source `ComputeManager.execute` (compute.ts lines 542-569): start/stop/reboot/
terminate route to `manageInstance`, attach/detach to `manageVolume`; every
thrown error becomes a failure envelope. -/
def cDispatch (cfg : AuthCfg) (b : CBackend) (now : Nat) (input : CInput) :
    Except ErrJS Envelope × List CCall :=
  match input with
  | .list i => cListResources cfg b i
  | .get t rid => cGetResource b t rid
  | .create t d => cCreateResource b now t d
  | .manage i =>
    match i.action with
    | .start | .stop | .reboot | .terminate => cManageInstance b i
    | .attachVolume | .detachVolume => cManageVolume b i

def cExecute (cfg : AuthCfg) (b : CBackend) (now : Nat) (input : CInput) :
    Envelope × List CCall :=
  match cDispatch cfg b now input with
  | (.ok env, tr) => (env, tr)
  | (.error e, tr) => (failEnv e, tr)

end OCIMCp

namespace OCIMCp

/-! ## Monitoring & Security domain (`src/tools/monitoring-security.ts`) -/

inductive MListType where
  | alarms | metrics | metricData | notifications | events
  | logGroups | logs | networkSecurityGroups | securityLists
  | vaultSecrets | certificates | policies | users | groups
deriving DecidableEq, Repr

def MListType.str : MListType → String
  | .alarms => "alarms"
  | .metrics => "metrics"
  | .metricData => "metric-data"
  | .notifications => "notifications"
  | .events => "events"
  | .logGroups => "log-groups"
  | .logs => "logs"
  | .networkSecurityGroups => "network-security-groups"
  | .securityLists => "security-lists"
  | .vaultSecrets => "vault-secrets"
  | .certificates => "certificates"
  | .policies => "policies"
  | .users => "users"
  | .groups => "groups"

structure MListInput where
  resourceType : MListType
  compartmentId : Option String := none
  metricNamespace : Option String := none
  logGroupId : Option String := none
  vcnId : Option String := none
  vaultId : Option String := none
  startTime : Option String := none
  endTime : Option String := none
  limit : Option Nat := none
  displayName : Option String := none
deriving DecidableEq, Repr

inductive MGetType where
  | alarm | metric | notificationTopic | logGroup | log
  | networkSecurityGroup | securityList | vault | secret
  | certificate | policy | user | group
deriving DecidableEq, Repr

def MGetType.str : MGetType → String
  | .alarm => "alarm"
  | .metric => "metric"
  | .notificationTopic => "notification-topic"
  | .logGroup => "log-group"
  | .log => "log"
  | .networkSecurityGroup => "network-security-group"
  | .securityList => "security-list"
  | .vault => "vault"
  | .secret => "secret"
  | .certificate => "certificate"
  | .policy => "policy"
  | .user => "user"
  | .group => "group"

inductive MCreateType where
  | alarm | notificationTopic | logGroup | networkSecurityGroup
  | vault | secret | policy | user | group
deriving DecidableEq, Repr

def MCreateType.str : MCreateType → String
  | .alarm => "alarm"
  | .notificationTopic => "notification-topic"
  | .logGroup => "log-group"
  | .networkSecurityGroup => "network-security-group"
  | .vault => "vault"
  | .secret => "secret"
  | .policy => "policy"
  | .user => "user"
  | .group => "group"

/-- An inline security rule of the network-security-group creation payload
(monitoring-security.ts lines 77-85). -/
structure SecRuleC where
  direction : String
  protocol : String
  source : Option String := none
  destination : Option String := none
  sourceType : Option String := none
  destinationType : Option String := none
  isStateless : Option Bool := none
deriving DecidableEq, Repr

/-- A security rule of the manage `add-security-rule` payload
(monitoring-security.ts lines 117-123). -/
structure SecRuleM where
  direction : String
  protocol : String
  source : Option String := none
  destination : Option String := none
  isStateless : Option Bool := none
deriving DecidableEq, Repr

structure AlarmCreateData where
  compartmentId : String
  displayName : String
  metricCompartmentId : String
  namespace_ : String
  query : String
  severity : String
  destinations : List String
  isEnabled : Option Bool := none
  body : Option String := none
  pendingDuration : Option String := none
deriving DecidableEq, Repr

structure TopicCreateData where
  compartmentId : String
  name : String
  description : Option String := none
deriving DecidableEq, Repr

structure LogGroupCreateData where
  compartmentId : String
  displayName : String
  description : Option String := none
deriving DecidableEq, Repr

structure NsgCreateData where
  compartmentId : String
  vcnId : String
  displayName : String
  securityRules : Option (List SecRuleC) := none
deriving DecidableEq, Repr

structure VaultCreateData where
  compartmentId : String
  displayName : String
  vaultType : Option String := none
deriving DecidableEq, Repr

structure IamCreateData where
  compartmentId : String
  name : String
  description : String
  statements : Option (List String) := none
  email : Option String := none
  members : Option (List String) := none
deriving DecidableEq, Repr

/-- The monitoring-security create `data` structural union, read through
`as any` casts: absent fields are `undefined`. -/
inductive MCreateData where
  | alarm (d : AlarmCreateData)
  | topic (d : TopicCreateData)
  | logGroup (d : LogGroupCreateData)
  | nsg (d : NsgCreateData)
  | vault (d : VaultCreateData)
  | iam (d : IamCreateData)
deriving DecidableEq, Repr

namespace MCreateData

def compartmentId : MCreateData → Option String
  | .alarm d => some d.compartmentId
  | .topic d => some d.compartmentId
  | .logGroup d => some d.compartmentId
  | .nsg d => some d.compartmentId
  | .vault d => some d.compartmentId
  | .iam d => some d.compartmentId

def displayName : MCreateData → Option String
  | .alarm d => some d.displayName
  | .logGroup d => some d.displayName
  | .nsg d => some d.displayName
  | .vault d => some d.displayName
  | _ => none

def metricCompartmentId : MCreateData → Option String
  | .alarm d => some d.metricCompartmentId
  | _ => none

def namespace_ : MCreateData → Option String
  | .alarm d => some d.namespace_
  | _ => none

def query : MCreateData → Option String
  | .alarm d => some d.query
  | _ => none

def severity : MCreateData → Option String
  | .alarm d => some d.severity
  | _ => none

def destinations : MCreateData → Option (List String)
  | .alarm d => some d.destinations
  | _ => none

def isEnabled : MCreateData → Option Bool
  | .alarm d => d.isEnabled
  | _ => none

def body : MCreateData → Option String
  | .alarm d => d.body
  | _ => none

def pendingDuration : MCreateData → Option String
  | .alarm d => d.pendingDuration
  | _ => none

def description : MCreateData → Option String
  | .topic d => d.description
  | .logGroup d => d.description
  | .iam d => some d.description
  | _ => none

def vcnId : MCreateData → Option String
  | .nsg d => some d.vcnId
  | _ => none

def securityRules : MCreateData → Option (List SecRuleC)
  | .nsg d => d.securityRules
  | _ => none

def name : MCreateData → Option String
  | .topic d => some d.name
  | .iam d => some d.name
  | _ => none

def email : MCreateData → Option String
  | .iam d => d.email
  | _ => none

def statements : MCreateData → Option (List String)
  | .iam d => d.statements
  | _ => none

end MCreateData

inductive MManageAction where
  | enableAlarm | disableAlarm | updateAlarm | deleteAlarm
  | addSecurityRule | removeSecurityRule | updateSecret
  | rotateSecret | addUserToGroup | removeUserFromGroup
  | attachPolicy | detachPolicy
deriving DecidableEq, Repr

def MManageAction.str : MManageAction → String
  | .enableAlarm => "enable-alarm"
  | .disableAlarm => "disable-alarm"
  | .updateAlarm => "update-alarm"
  | .deleteAlarm => "delete-alarm"
  | .addSecurityRule => "add-security-rule"
  | .removeSecurityRule => "remove-security-rule"
  | .updateSecret => "update-secret"
  | .rotateSecret => "rotate-secret"
  | .addUserToGroup => "add-user-to-group"
  | .removeUserFromGroup => "remove-user-from-group"
  | .attachPolicy => "attach-policy"
  | .detachPolicy => "detach-policy"

inductive MManageType where
  | alarm | networkSecurityGroup | secret | group | policy
deriving DecidableEq, Repr

structure MManageInput where
  action : MManageAction
  resourceType : MManageType
  resourceId : String
  securityRule : Option SecRuleM := none
  secretContent : Option String := none
  userId : Option String := none
  groupId : Option String := none
  policyId : Option String := none
  query : Option String := none
  severity : Option String := none
  isEnabled : Option Bool := none
deriving DecidableEq, Repr

/-- The validated `MonitoringSecurityToolInput` union. -/
inductive MInput where
  | list (i : MListInput)
  | get (i : MGetType) (resourceId : String) (logGroupId : Option String)
      (secretName : Option String)
  | create (resourceType : MCreateType) (data : MCreateData)
  | manage (i : MManageInput)
deriving DecidableEq, Repr

structure MListReq where
  compartmentId : String
  limit : Nat := 50
  displayName : Option String := none
  namespace_ : Option String := none
  vcnId : Option String := none
deriving DecidableEq, Repr

/-- The `summarizeMetricsData` request: `query` is
`` `${input.metricNamespace}[]` `` and the time bounds are passed through
(date parsing is the backend collaborator's concern). -/
structure MetricDataReq where
  compartmentId : String
  query : String
  startTime : String
  endTime : String
deriving DecidableEq, Repr

structure CreateAlarmDetails where
  compartmentId : Option String
  displayName : Option String
  metricCompartmentId : Option String
  namespace_ : Option String
  query : Option String
  severity : Option String
  destinations : Option (List String)
  isEnabled : Bool
  body : Option String
  pendingDuration : String
deriving DecidableEq, Repr

/-- Request `createAlarmDetails` (monitoring-security.ts lines 422-435):
`isEnabled: alarmData.isEnabled !== false` and
`pendingDuration: alarmData.pendingDuration || 'PT5M'`. -/
def mkCreateAlarmDetails (d : MCreateData) : CreateAlarmDetails :=
  { compartmentId := d.compartmentId
    displayName := d.displayName
    metricCompartmentId := d.metricCompartmentId
    namespace_ := d.namespace_
    query := d.query
    severity := d.severity
    destinations := d.destinations
    isEnabled := d.isEnabled ≠ some false
    body := d.body
    pendingDuration := jsOr d.pendingDuration "PT5M" }

structure CreateLogGroupDetails where
  compartmentId : Option String
  displayName : Option String
  description : Option String
deriving DecidableEq, Repr

structure CreateNsgDetails where
  compartmentId : Option String
  vcnId : Option String
  displayName : Option String
deriving DecidableEq, Repr

def mkCreateNsgDetails (d : MCreateData) : CreateNsgDetails :=
  { compartmentId := d.compartmentId, vcnId := d.vcnId, displayName := d.displayName }

structure CreateUserDetails where
  compartmentId : Option String
  name : Option String
  description : Option String
  email : Option String
deriving DecidableEq, Repr

structure CreateGroupDetails where
  compartmentId : Option String
  name : Option String
  description : Option String
deriving DecidableEq, Repr

structure CreatePolicyDetails where
  compartmentId : Option String
  name : Option String
  description : Option String
  statements : List String
deriving DecidableEq, Repr

structure UpdateAlarmDetails where
  query : Option String := none
  severity : Option String := none
  isEnabled : Option Bool := none
deriving DecidableEq, Repr

inductive MCall where
  | listAlarms (req : MListReq)
  | listMetrics (req : MListReq)
  | summarizeMetricsData (req : MetricDataReq)
  | listLogGroups (req : MListReq)
  | listNetworkSecurityGroups (req : MListReq)
  | listSecurityLists (req : MListReq)
  | listUsers (req : MListReq)
  | listGroups (req : MListReq)
  | listPolicies (req : MListReq)
  | getAlarm (alarmId : String)
  | getLogGroup (logGroupId : String)
  | getNetworkSecurityGroup (networkSecurityGroupId : String)
  | getSecurityList (securityListId : String)
  | getUser (userId : String)
  | getGroup (groupId : String)
  | getPolicy (policyId : String)
  | createAlarm (details : CreateAlarmDetails)
  | createLogGroup (details : CreateLogGroupDetails)
  | createNetworkSecurityGroup (details : CreateNsgDetails)
  | addNsgSecurityRulesC (networkSecurityGroupId : String) (securityRules : List SecRuleC)
  | addNsgSecurityRulesM (networkSecurityGroupId : String) (securityRules : List SecRuleM)
  | createUser (details : CreateUserDetails)
  | createGroup (details : CreateGroupDetails)
  | createPolicy (details : CreatePolicyDetails)
  | updateAlarm (alarmId : String) (details : UpdateAlarmDetails)
  | deleteAlarm (alarmId : String)
  | addUserToGroup (userId : String) (groupId : String)
  | removeUserFromGroup (userGroupMembershipId : String)
deriving DecidableEq, Repr

structure MBackend where
  listAlarms : MListReq → Except ErrJS (List OCIRec) := fun _ => .error {}
  listMetrics : MListReq → Except ErrJS (List OCIRec) := fun _ => .error {}
  summarizeMetricsData : MetricDataReq → Except ErrJS (List OCIRec) := fun _ => .error {}
  listLogGroups : MListReq → Except ErrJS (List OCIRec) := fun _ => .error {}
  listNetworkSecurityGroups : MListReq → Except ErrJS (List OCIRec) := fun _ => .error {}
  listSecurityLists : MListReq → Except ErrJS (List OCIRec) := fun _ => .error {}
  listUsers : MListReq → Except ErrJS (List OCIRec) := fun _ => .error {}
  listGroups : MListReq → Except ErrJS (List OCIRec) := fun _ => .error {}
  listPolicies : MListReq → Except ErrJS (List OCIRec) := fun _ => .error {}
  getAlarm : String → Except ErrJS OCIRec := fun _ => .error {}
  getLogGroup : String → Except ErrJS OCIRec := fun _ => .error {}
  getNetworkSecurityGroup : String → Except ErrJS OCIRec := fun _ => .error {}
  getSecurityList : String → Except ErrJS OCIRec := fun _ => .error {}
  getUser : String → Except ErrJS OCIRec := fun _ => .error {}
  getGroup : String → Except ErrJS OCIRec := fun _ => .error {}
  getPolicy : String → Except ErrJS OCIRec := fun _ => .error {}
  createAlarm : CreateAlarmDetails → Except ErrJS OCIRec := fun _ => .error {}
  createLogGroup : CreateLogGroupDetails → Except ErrJS OCIRec := fun _ => .error {}
  createNetworkSecurityGroup : CreateNsgDetails → Except ErrJS OCIRec := fun _ => .error {}
  addNsgSecurityRulesC : String → List SecRuleC → Except ErrJS Unit := fun _ _ => .error {}
  addNsgSecurityRulesM : String → List SecRuleM → Except ErrJS Unit := fun _ _ => .error {}
  createUser : CreateUserDetails → Except ErrJS OCIRec := fun _ => .error {}
  createGroup : CreateGroupDetails → Except ErrJS OCIRec := fun _ => .error {}
  createPolicy : CreatePolicyDetails → Except ErrJS OCIRec := fun _ => .error {}
  updateAlarm : String → UpdateAlarmDetails → Except ErrJS OCIRec := fun _ _ => .error {}
  deleteAlarm : String → Except ErrJS Unit := fun _ => .error {}
  addUserToGroup : String → String → Except ErrJS OCIRec := fun _ _ => .error {}
  removeUserFromGroup : String → Except ErrJS Unit := fun _ => .error {}

/-- Source `MonitoringSecurityManager.listResources` (monitoring-security.ts
lines 182-332). -/
def mListResources (cfg : AuthCfg) (b : MBackend) (i : MListInput) :
    Except ErrJS Envelope × List MCall :=
  let compartmentId := jsOr i.compartmentId (defaultCompartmentId cfg)
  match i.resourceType with
  | .alarms =>
    let req : MListReq := { compartmentId := compartmentId, limit := jsOrN i.limit 50,
                            displayName := i.displayName }
    (match b.listAlarms req with
     | .ok items =>
       (.ok { success := true, data := some (.items items), count := some items.length,
              message := some ("Found " ++ toString items.length ++ " alarms") },
        [.listAlarms req])
     | .error e => (.error e, [.listAlarms req]))
  | .metrics =>
    if !jsTruthyS i.metricNamespace then
      (.error (throwErr "Metric namespace is required for listing metrics"), [])
    else
      let req : MListReq := { compartmentId := compartmentId,
                              namespace_ := i.metricNamespace, limit := jsOrN i.limit 50 }
      (match b.listMetrics req with
       | .ok items =>
         (.ok { success := true, data := some (.items items), count := some items.length,
                message := some ("Found " ++ toString items.length ++ " metrics in namespace " ++
                                 i.metricNamespace.getD "") },
          [.listMetrics req])
       | .error e => (.error e, [.listMetrics req]))
  | .metricData =>
    if !jsTruthyS i.metricNamespace || !jsTruthyS i.startTime || !jsTruthyS i.endTime then
      (.error (throwErr "Metric namespace, start time, and end time are required for metric data"),
       [])
    else
      let req : MetricDataReq := { compartmentId := compartmentId,
                                   query := i.metricNamespace.getD "" ++ "[]",
                                   startTime := i.startTime.getD "",
                                   endTime := i.endTime.getD "" }
      (match b.summarizeMetricsData req with
       | .ok items =>
         (.ok { success := true, data := some (.items items), count := some items.length,
                message := some ("Retrieved metric data for " ++ i.metricNamespace.getD "") },
          [.summarizeMetricsData req])
       | .error e => (.error e, [.summarizeMetricsData req]))
  | .logGroups =>
    let req : MListReq := { compartmentId := compartmentId, limit := jsOrN i.limit 50,
                            displayName := i.displayName }
    (match b.listLogGroups req with
     | .ok items =>
       (.ok { success := true, data := some (.items items), count := some items.length,
              message := some ("Found " ++ toString items.length ++ " log groups") },
        [.listLogGroups req])
     | .error e => (.error e, [.listLogGroups req]))
  | .networkSecurityGroups =>
    let req : MListReq := { compartmentId := compartmentId, vcnId := i.vcnId,
                            limit := jsOrN i.limit 50, displayName := i.displayName }
    (match b.listNetworkSecurityGroups req with
     | .ok items =>
       (.ok { success := true, data := some (.items items), count := some items.length,
              message := some ("Found " ++ toString items.length ++ " network security groups") },
        [.listNetworkSecurityGroups req])
     | .error e => (.error e, [.listNetworkSecurityGroups req]))
  | .securityLists =>
    let req : MListReq := { compartmentId := compartmentId, vcnId := i.vcnId,
                            limit := jsOrN i.limit 50, displayName := i.displayName }
    (match b.listSecurityLists req with
     | .ok items =>
       (.ok { success := true, data := some (.items items), count := some items.length,
              message := some ("Found " ++ toString items.length ++ " security lists") },
        [.listSecurityLists req])
     | .error e => (.error e, [.listSecurityLists req]))
  | .users =>
    let req : MListReq := { compartmentId := compartmentId, limit := jsOrN i.limit 50 }
    (match b.listUsers req with
     | .ok items =>
       (.ok { success := true, data := some (.items items), count := some items.length,
              message := some ("Found " ++ toString items.length ++ " users") },
        [.listUsers req])
     | .error e => (.error e, [.listUsers req]))
  | .groups =>
    let req : MListReq := { compartmentId := compartmentId, limit := jsOrN i.limit 50 }
    (match b.listGroups req with
     | .ok items =>
       (.ok { success := true, data := some (.items items), count := some items.length,
              message := some ("Found " ++ toString items.length ++ " groups") },
        [.listGroups req])
     | .error e => (.error e, [.listGroups req]))
  | .policies =>
    let req : MListReq := { compartmentId := compartmentId, limit := jsOrN i.limit 50 }
    (match b.listPolicies req with
     | .ok items =>
       (.ok { success := true, data := some (.items items), count := some items.length,
              message := some ("Found " ++ toString items.length ++ " policies") },
        [.listPolicies req])
     | .error e => (.error e, [.listPolicies req]))
  | t => (.error (throwErr ("Unsupported resource type: " ++ t.str)), [])

/-- Source `MonitoringSecurityManager.getResource` (lines 334-416). -/
def mGetResource (b : MBackend) (t : MGetType) (resourceId : String) :
    Except ErrJS Envelope × List MCall :=
  match t with
  | .alarm =>
    (match b.getAlarm resourceId with
     | .ok r =>
       (.ok { success := true, data := some (.one r),
              message := some ("Retrieved alarm details for " ++ resourceId) },
        [.getAlarm resourceId])
     | .error e => (.error e, [.getAlarm resourceId]))
  | .logGroup =>
    (match b.getLogGroup resourceId with
     | .ok r =>
       (.ok { success := true, data := some (.one r),
              message := some ("Retrieved log group details for " ++ resourceId) },
        [.getLogGroup resourceId])
     | .error e => (.error e, [.getLogGroup resourceId]))
  | .networkSecurityGroup =>
    (match b.getNetworkSecurityGroup resourceId with
     | .ok r =>
       (.ok { success := true, data := some (.one r),
              message := some ("Retrieved network security group details for " ++ resourceId) },
        [.getNetworkSecurityGroup resourceId])
     | .error e => (.error e, [.getNetworkSecurityGroup resourceId]))
  | .securityList =>
    (match b.getSecurityList resourceId with
     | .ok r =>
       (.ok { success := true, data := some (.one r),
              message := some ("Retrieved security list details for " ++ resourceId) },
        [.getSecurityList resourceId])
     | .error e => (.error e, [.getSecurityList resourceId]))
  | .user =>
    (match b.getUser resourceId with
     | .ok r =>
       (.ok { success := true, data := some (.one r),
              message := some ("Retrieved user details for " ++ resourceId) },
        [.getUser resourceId])
     | .error e => (.error e, [.getUser resourceId]))
  | .group =>
    (match b.getGroup resourceId with
     | .ok r =>
       (.ok { success := true, data := some (.one r),
              message := some ("Retrieved group details for " ++ resourceId) },
        [.getGroup resourceId])
     | .error e => (.error e, [.getGroup resourceId]))
  | .policy =>
    (match b.getPolicy resourceId with
     | .ok r =>
       (.ok { success := true, data := some (.one r),
              message := some ("Retrieved policy details for " ++ resourceId) },
        [.getPolicy resourceId])
     | .error e => (.error e, [.getPolicy resourceId]))
  | t' => (.error (throwErr ("Unsupported resource type: " ++ t'.str)), [])

/-- The sequential `for (const rule of nsgData.securityRules)` loop
(monitoring-security.ts lines 479-486): one `addNetworkSecurityGroupSecurityRules`
backend call per rule, each carrying a singleton `securityRules: [rule]`; a
rejection aborts the remainder of the loop. -/
def addRulesLoop (b : MBackend) (gid : String) :
    List SecRuleC → Except ErrJS Unit × List MCall
  | [] => (.ok (), [])
  | r :: rs =>
    match b.addNsgSecurityRulesC gid [r] with
    | .ok _ =>
      let rest := addRulesLoop b gid rs
      (rest.1, .addNsgSecurityRulesC gid [r] :: rest.2)
    | .error e => (.error e, [.addNsgSecurityRulesC gid [r]])

/-- Source `MonitoringSecurityManager.createResource` (lines 418-558). -/
def mCreateResource (b : MBackend) (t : MCreateType) (d : MCreateData) :
    Except ErrJS Envelope × List MCall :=
  match t with
  | .alarm =>
    let details := mkCreateAlarmDetails d
    (match b.createAlarm details with
     | .ok r =>
       (.ok { success := true, data := some (.one r),
              message := some ("Alarm created successfully: " ++ r.displayName),
              operationId := some r.id },
        [.createAlarm details])
     | .error e => (.error e, [.createAlarm details]))
  | .logGroup =>
    let details : CreateLogGroupDetails :=
      { compartmentId := d.compartmentId, displayName := d.displayName,
        description := d.description }
    (match b.createLogGroup details with
     | .ok r =>
       (.ok { success := true, data := some (.one r),
              message := some ("Log group created successfully: " ++ r.displayName),
              operationId := some r.id },
        [.createLogGroup details])
     | .error e => (.error e, [.createLogGroup details]))
  | .networkSecurityGroup =>
    let details := mkCreateNsgDetails d
    (match b.createNetworkSecurityGroup details with
     | .ok g =>
       let ruleRes : Except ErrJS Unit × List MCall :=
         match d.securityRules with
         | some rs => if 0 < rs.length then addRulesLoop b g.id rs else (.ok (), [])
         | none => (.ok (), [])
       (match ruleRes.1 with
        | .ok _ =>
          (.ok { success := true, data := some (.one g),
                 message := some ("Network security group created successfully: " ++
                                  g.displayName),
                 operationId := some g.id },
           .createNetworkSecurityGroup details :: ruleRes.2)
        | .error e => (.error e, .createNetworkSecurityGroup details :: ruleRes.2))
     | .error e => (.error e, [.createNetworkSecurityGroup details]))
  | .user =>
    let details : CreateUserDetails :=
      { compartmentId := d.compartmentId, name := d.name,
        description := d.description, email := d.email }
    (match b.createUser details with
     | .ok r =>
       (.ok { success := true, data := some (.one r),
              message := some ("User created successfully: " ++ r.name),
              operationId := some r.id },
        [.createUser details])
     | .error e => (.error e, [.createUser details]))
  | .group =>
    let details : CreateGroupDetails :=
      { compartmentId := d.compartmentId, name := d.name, description := d.description }
    (match b.createGroup details with
     | .ok r =>
       (.ok { success := true, data := some (.one r),
              message := some ("Group created successfully: " ++ r.name),
              operationId := some r.id },
        [.createGroup details])
     | .error e => (.error e, [.createGroup details]))
  | .policy =>
    let details : CreatePolicyDetails :=
      { compartmentId := d.compartmentId, name := d.name, description := d.description,
        statements := (d.statements).getD [] }
    (match b.createPolicy details with
     | .ok r =>
       (.ok { success := true, data := some (.one r),
              message := some ("Policy created successfully: " ++ r.name),
              operationId := some r.id },
        [.createPolicy details])
     | .error e => (.error e, [.createPolicy details]))
  | t' => (.error (throwErr ("Unsupported resource type: " ++ t'.str)), [])

/-- Source `MonitoringSecurityManager.manageResource` (lines 560-685). -/
def mManageResource (b : MBackend) (i : MManageInput) :
    Except ErrJS Envelope × List MCall :=
  match i.action with
  | .enableAlarm =>
    let details : UpdateAlarmDetails := { isEnabled := some true }
    (match b.updateAlarm i.resourceId details with
     | .ok r =>
       (.ok { success := true, data := some (.one r),
              message := some ("Alarm enabled: " ++ i.resourceId),
              operationId := some i.resourceId },
        [.updateAlarm i.resourceId details])
     | .error e => (.error e, [.updateAlarm i.resourceId details]))
  | .disableAlarm =>
    let details : UpdateAlarmDetails := { isEnabled := some false }
    (match b.updateAlarm i.resourceId details with
     | .ok r =>
       (.ok { success := true, data := some (.one r),
              message := some ("Alarm disabled: " ++ i.resourceId),
              operationId := some i.resourceId },
        [.updateAlarm i.resourceId details])
     | .error e => (.error e, [.updateAlarm i.resourceId details]))
  | .updateAlarm =>
    let details : UpdateAlarmDetails :=
      { query := i.query, severity := i.severity, isEnabled := i.isEnabled }
    (match b.updateAlarm i.resourceId details with
     | .ok r =>
       (.ok { success := true, data := some (.one r),
              message := some ("Alarm updated: " ++ i.resourceId),
              operationId := some i.resourceId },
        [.updateAlarm i.resourceId details])
     | .error e => (.error e, [.updateAlarm i.resourceId details]))
  | .deleteAlarm =>
    (match b.deleteAlarm i.resourceId with
     | .ok _ =>
       (.ok { success := true,
              message := some ("Alarm deletion initiated: " ++ i.resourceId),
              operationId := some i.resourceId },
        [.deleteAlarm i.resourceId])
     | .error e => (.error e, [.deleteAlarm i.resourceId]))
  | .addSecurityRule =>
    (match i.securityRule with
     | none => (.error (throwErr "Security rule is required for adding security rule"), [])
     | some rule =>
       (match b.addNsgSecurityRulesM i.resourceId [rule] with
        | .ok _ =>
          (.ok { success := true,
                 message := some ("Security rule added to NSG: " ++ i.resourceId),
                 operationId := some i.resourceId },
           [.addNsgSecurityRulesM i.resourceId [rule]])
        | .error e => (.error e, [.addNsgSecurityRulesM i.resourceId [rule]])))
  | .addUserToGroup =>
    if !jsTruthyS i.userId || !jsTruthyS i.groupId then
      (.error (throwErr "Both userId and groupId are required for adding user to group"), [])
    else
      (match b.addUserToGroup (i.userId.getD "") (i.groupId.getD "") with
       | .ok r =>
         (.ok { success := true, data := some (.one r),
                message := some ("User " ++ i.userId.getD "" ++ " added to group " ++
                                 i.groupId.getD ""),
                operationId := some r.id },
          [.addUserToGroup (i.userId.getD "") (i.groupId.getD "")])
       | .error e => (.error e, [.addUserToGroup (i.userId.getD "") (i.groupId.getD "")]))
  | .removeUserFromGroup =>
    (match b.removeUserFromGroup i.resourceId with
     | .ok _ =>
       (.ok { success := true,
              message := some ("User removed from group: " ++ i.resourceId),
              operationId := some i.resourceId },
        [.removeUserFromGroup i.resourceId])
     | .error e => (.error e, [.removeUserFromGroup i.resourceId]))
  | a => (.error (throwErr ("Unsupported management action: " ++ a.str)), [])

/-- Source `MonitoringSecurityManager.execute` (lines 148-180). -/
def mDispatch (cfg : AuthCfg) (b : MBackend) (input : MInput) :
    Except ErrJS Envelope × List MCall :=
  match input with
  | .list i => mListResources cfg b i
  | .get t rid _ _ => mGetResource b t rid
  | .create t d => mCreateResource b t d
  | .manage i => mManageResource b i

def mExecute (cfg : AuthCfg) (b : MBackend) (input : MInput) :
    Envelope × List MCall :=
  match mDispatch cfg b input with
  | (.ok env, tr) => (env, tr)
  | (.error e, tr) => (failEnv e, tr)

end OCIMCp

namespace OCIMCp

/-! ## Storage & Network domain (`src/tools/storage-network.ts`) -/

inductive SListType where
  | buckets | objects | vcns | subnets | securityLists
  | routeTables | internetGateways | natGateways | loadBalancers
deriving DecidableEq, Repr

def SListType.str : SListType → String
  | .buckets => "buckets"
  | .objects => "objects"
  | .vcns => "vcns"
  | .subnets => "subnets"
  | .securityLists => "security-lists"
  | .routeTables => "route-tables"
  | .internetGateways => "internet-gateways"
  | .natGateways => "nat-gateways"
  | .loadBalancers => "load-balancers"

structure SListInput where
  resourceType : SListType
  compartmentId : Option String := none
  namespaceName : Option String := none
  bucketName : Option String := none
  vcnId : Option String := none
  limit : Option Nat := none
  displayName : Option String := none
deriving DecidableEq, Repr

inductive SGetType where
  | bucket | object | vcn | subnet | securityList
  | routeTable | internetGateway | natGateway | loadBalancer
deriving DecidableEq, Repr

def SGetType.str : SGetType → String
  | .bucket => "bucket"
  | .object => "object"
  | .vcn => "vcn"
  | .subnet => "subnet"
  | .securityList => "security-list"
  | .routeTable => "route-table"
  | .internetGateway => "internet-gateway"
  | .natGateway => "nat-gateway"
  | .loadBalancer => "load-balancer"

structure SGetInput where
  resourceType : SGetType
  resourceId : String
  namespaceName : Option String := none
  bucketName : Option String := none
  objectName : Option String := none
deriving DecidableEq, Repr

inductive SCreateType where
  | bucket | vcn | subnet | securityList | routeTable | internetGateway | natGateway
deriving DecidableEq, Repr

def SCreateType.str : SCreateType → String
  | .bucket => "bucket"
  | .vcn => "vcn"
  | .subnet => "subnet"
  | .securityList => "security-list"
  | .routeTable => "route-table"
  | .internetGateway => "internet-gateway"
  | .natGateway => "nat-gateway"

/-- Schema `CreateBucketRequestSchema` (types/oci.ts lines 58-64). -/
structure BucketCreateData where
  name : String
  compartmentId : String
  namespace_ : String
  storageTier : Option String := none
  publicAccessType : Option String := none
deriving DecidableEq, Repr

structure VcnCreateData where
  compartmentId : String
  cidrBlock : String
  displayName : Option String := none
  dnsLabel : Option String := none
deriving DecidableEq, Repr

structure SubnetCreateData where
  compartmentId : String
  vcnId : String
  cidrBlock : String
  availabilityDomain : Option String := none
  displayName : Option String := none
  routeTableId : Option String := none
  securityListIds : Option (List String) := none
  prohibitPublicIpOnVnic : Option Bool := none
deriving DecidableEq, Repr

structure GatewayCreateData where
  compartmentId : String
  vcnId : String
  displayName : Option String := none
  isEnabled : Option Bool := none
deriving DecidableEq, Repr

/-- The storage-network create `data` structural union. -/
inductive SCreateData where
  | bucket (d : BucketCreateData)
  | vcn (d : VcnCreateData)
  | subnet (d : SubnetCreateData)
  | gateway (d : GatewayCreateData)
deriving DecidableEq, Repr

namespace SCreateData

def name : SCreateData → Option String
  | .bucket d => some d.name
  | _ => none

def compartmentId : SCreateData → Option String
  | .bucket d => some d.compartmentId
  | .vcn d => some d.compartmentId
  | .subnet d => some d.compartmentId
  | .gateway d => some d.compartmentId

def namespace_ : SCreateData → Option String
  | .bucket d => some d.namespace_
  | _ => none

def storageTier : SCreateData → Option String
  | .bucket d => d.storageTier
  | _ => none

def publicAccessType : SCreateData → Option String
  | .bucket d => d.publicAccessType
  | _ => none

def cidrBlock : SCreateData → Option String
  | .vcn d => some d.cidrBlock
  | .subnet d => some d.cidrBlock
  | _ => none

def displayName : SCreateData → Option String
  | .vcn d => d.displayName
  | .subnet d => d.displayName
  | .gateway d => d.displayName
  | _ => none

def dnsLabel : SCreateData → Option String
  | .vcn d => d.dnsLabel
  | _ => none

def vcnId : SCreateData → Option String
  | .subnet d => some d.vcnId
  | .gateway d => some d.vcnId
  | _ => none

def availabilityDomain : SCreateData → Option String
  | .subnet d => d.availabilityDomain
  | _ => none

def routeTableId : SCreateData → Option String
  | .subnet d => d.routeTableId
  | _ => none

def securityListIds : SCreateData → Option (List String)
  | .subnet d => d.securityListIds
  | _ => none

def prohibitPublicIpOnVnic : SCreateData → Option Bool
  | .subnet d => d.prohibitPublicIpOnVnic
  | _ => none

def isEnabled : SCreateData → Option Bool
  | .gateway d => d.isEnabled
  | _ => none

end SCreateData

inductive SManageAction where
  | uploadObject | downloadObject | deleteObject
  | deleteBucket | deleteVcn | updateSecurityList
deriving DecidableEq, Repr

def SManageAction.str : SManageAction → String
  | .uploadObject => "upload-object"
  | .downloadObject => "download-object"
  | .deleteObject => "delete-object"
  | .deleteBucket => "delete-bucket"
  | .deleteVcn => "delete-vcn"
  | .updateSecurityList => "update-security-list"

inductive SManageType where
  | object | bucket | vcn | securityList
deriving DecidableEq, Repr

structure SManageInput where
  action : SManageAction
  resourceType : SManageType
  resourceId : Option String := none
  namespaceName : Option String := none
  bucketName : Option String := none
  objectName : Option String := none
  objectContent : Option String := none
  contentType : Option String := none
  securityRules : Option (List SecRuleM) := none
deriving DecidableEq, Repr

/-- The validated `StorageNetworkToolInput` union. -/
inductive SInput where
  | list (i : SListInput)
  | get (i : SGetInput)
  | create (resourceType : SCreateType) (data : SCreateData)
  | manage (i : SManageInput)
deriving DecidableEq, Repr

structure SListReq where
  compartmentId : Option String := none
  namespaceName : Option String := none
  bucketName : Option String := none
  vcnId : Option String := none
  limit : Nat := 50
  displayName : Option String := none
deriving DecidableEq, Repr

structure CreateBucketReq where
  namespaceName : Option String
  name : Option String
  compartmentId : Option String
  storageTier : String
  publicAccessType : String
deriving DecidableEq, Repr

structure CreateVcnDetails where
  compartmentId : Option String
  cidrBlock : Option String
  displayName : String
  dnsLabel : Option String
deriving DecidableEq, Repr

structure CreateSubnetDetails where
  compartmentId : Option String
  vcnId : Option String
  cidrBlock : Option String
  availabilityDomain : Option String
  displayName : String
  routeTableId : Option String
  securityListIds : Option (List String)
  prohibitPublicIpOnVnic : Option Bool
deriving DecidableEq, Repr

structure CreateIgwDetails where
  compartmentId : Option String
  vcnId : Option String
  displayName : String
  isEnabled : Bool
deriving DecidableEq, Repr

structure PutObjectReq where
  namespaceName : String
  bucketName : Option String
  objectName : Option String
  putObjectBody : Option String
  contentType : String
deriving DecidableEq, Repr

inductive SCall where
  | getNamespace
  | listBuckets (req : SListReq)
  | listObjects (req : SListReq)
  | listVcns (req : SListReq)
  | listSubnets (req : SListReq)
  | listSecurityLists (req : SListReq)
  | listRouteTables (req : SListReq)
  | listInternetGateways (req : SListReq)
  | listNatGateways (req : SListReq)
  | listLoadBalancers (req : SListReq)
  | getBucket (namespaceName : String) (bucketName : String)
  | getObject (namespaceName : String) (bucketName : String) (objectName : String)
  | getVcn (vcnId : String)
  | getSubnet (subnetId : String)
  | getSecurityListS (securityListId : String)
  | createBucket (req : CreateBucketReq)
  | createVcn (details : CreateVcnDetails)
  | createSubnet (details : CreateSubnetDetails)
  | createInternetGateway (details : CreateIgwDetails)
  | putObject (req : PutObjectReq)
  | deleteObject (namespaceName : String) (bucketName : String) (objectName : String)
  | deleteBucket (namespaceName : String) (bucketName : String)
  | deleteVcn (vcnId : String)
deriving DecidableEq, Repr

structure SBackend where
  getNamespace : Unit → Except ErrJS String := fun _ => .error {}
  listBuckets : SListReq → Except ErrJS (List OCIRec) := fun _ => .error {}
  /-- Source `listObjects` responses nest the item list as
  `response.listObjects.objects`, which may be absent. -/
  listObjects : SListReq → Except ErrJS (Option (List OCIRec)) := fun _ => .error {}
  listVcns : SListReq → Except ErrJS (List OCIRec) := fun _ => .error {}
  listSubnets : SListReq → Except ErrJS (List OCIRec) := fun _ => .error {}
  listSecurityLists : SListReq → Except ErrJS (List OCIRec) := fun _ => .error {}
  listRouteTables : SListReq → Except ErrJS (List OCIRec) := fun _ => .error {}
  listInternetGateways : SListReq → Except ErrJS (List OCIRec) := fun _ => .error {}
  listNatGateways : SListReq → Except ErrJS (List OCIRec) := fun _ => .error {}
  listLoadBalancers : SListReq → Except ErrJS (List OCIRec) := fun _ => .error {}
  getBucket : String → String → Except ErrJS OCIRec := fun _ _ => .error {}
  getObject : String → String → String → Except ErrJS OCIRec := fun _ _ _ => .error {}
  getVcn : String → Except ErrJS OCIRec := fun _ => .error {}
  getSubnet : String → Except ErrJS OCIRec := fun _ => .error {}
  getSecurityListS : String → Except ErrJS OCIRec := fun _ => .error {}
  createBucket : CreateBucketReq → Except ErrJS OCIRec := fun _ => .error {}
  createVcn : CreateVcnDetails → Except ErrJS OCIRec := fun _ => .error {}
  createSubnet : CreateSubnetDetails → Except ErrJS OCIRec := fun _ => .error {}
  createInternetGateway : CreateIgwDetails → Except ErrJS OCIRec := fun _ => .error {}
  putObject : PutObjectReq → Except ErrJS Unit := fun _ => .error {}
  deleteObject : String → String → String → Except ErrJS Unit := fun _ _ _ => .error {}
  deleteBucket : String → String → Except ErrJS Unit := fun _ _ => .error {}
  deleteVcn : String → Except ErrJS Unit := fun _ => .error {}

/-- Source `input.namespaceName || await this.getNamespace()` (storage-network.ts):
resolves the object-storage namespace, calling the backend only when the
input's `namespaceName` is falsy. -/
def resolveNs (b : SBackend) (nsOpt : Option String) : Except ErrJS String × List SCall :=
  if jsTruthyS nsOpt then (.ok (nsOpt.getD ""), [])
  else
    match b.getNamespace () with
    | .ok v => (.ok v, [.getNamespace])
    | .error e => (.error e, [.getNamespace])

/-- Source `StorageNetworkManager.listResources` (storage-network.ts lines 815-968). -/
def sListResources (cfg : AuthCfg) (b : SBackend) (i : SListInput) :
    Except ErrJS Envelope × List SCall :=
  let compartmentId := jsOr i.compartmentId (defaultCompartmentId cfg)
  match i.resourceType with
  | .buckets =>
    let ns := resolveNs b i.namespaceName
    (match ns.1 with
     | .error e => (.error e, ns.2)
     | .ok nsName =>
       let req : SListReq := { namespaceName := some nsName, compartmentId := some compartmentId,
                               limit := jsOrN i.limit 50 }
       (match b.listBuckets req with
        | .ok items =>
          (.ok { success := true, data := some (.items items), count := some items.length,
                 message := some ("Found " ++ toString items.length ++ " buckets") },
           ns.2 ++ [.listBuckets req])
        | .error e => (.error e, ns.2 ++ [.listBuckets req])))
  | .objects =>
    if !jsTruthyS i.bucketName then
      (.error (throwErr "Bucket name is required for listing objects"), [])
    else
      let ns := resolveNs b i.namespaceName
      (match ns.1 with
       | .error e => (.error e, ns.2)
       | .ok nsName =>
         let req : SListReq := { namespaceName := some nsName, bucketName := i.bucketName,
                                 limit := jsOrN i.limit 50 }
         (match b.listObjects req with
          | .ok objects =>
            (.ok { success := true, data := some (.items (objects.getD [])),
                   count := some (jsOrN (objects.map List.length) 0),
                   message := some ("Found " ++ toString (jsOrN (objects.map List.length) 0) ++
                                    " objects in bucket " ++ i.bucketName.getD "") },
             ns.2 ++ [.listObjects req])
          | .error e => (.error e, ns.2 ++ [.listObjects req])))
  | .vcns =>
    let req : SListReq := { compartmentId := some compartmentId, limit := jsOrN i.limit 50,
                            displayName := i.displayName }
    (match b.listVcns req with
     | .ok items =>
       (.ok { success := true, data := some (.items items), count := some items.length,
              message := some ("Found " ++ toString items.length ++ " VCNs") },
        [.listVcns req])
     | .error e => (.error e, [.listVcns req]))
  | .subnets =>
    let req : SListReq := { compartmentId := some compartmentId, vcnId := i.vcnId,
                            limit := jsOrN i.limit 50, displayName := i.displayName }
    (match b.listSubnets req with
     | .ok items =>
       (.ok { success := true, data := some (.items items), count := some items.length,
              message := some ("Found " ++ toString items.length ++ " subnets") },
        [.listSubnets req])
     | .error e => (.error e, [.listSubnets req]))
  | .securityLists =>
    let req : SListReq := { compartmentId := some compartmentId, vcnId := i.vcnId,
                            limit := jsOrN i.limit 50, displayName := i.displayName }
    (match b.listSecurityLists req with
     | .ok items =>
       (.ok { success := true, data := some (.items items), count := some items.length,
              message := some ("Found " ++ toString items.length ++ " security lists") },
        [.listSecurityLists req])
     | .error e => (.error e, [.listSecurityLists req]))
  | .routeTables =>
    let req : SListReq := { compartmentId := some compartmentId, vcnId := i.vcnId,
                            limit := jsOrN i.limit 50, displayName := i.displayName }
    (match b.listRouteTables req with
     | .ok items =>
       (.ok { success := true, data := some (.items items), count := some items.length,
              message := some ("Found " ++ toString items.length ++ " route tables") },
        [.listRouteTables req])
     | .error e => (.error e, [.listRouteTables req]))
  | .internetGateways =>
    let req : SListReq := { compartmentId := some compartmentId, vcnId := i.vcnId,
                            limit := jsOrN i.limit 50, displayName := i.displayName }
    (match b.listInternetGateways req with
     | .ok items =>
       (.ok { success := true, data := some (.items items), count := some items.length,
              message := some ("Found " ++ toString items.length ++ " internet gateways") },
        [.listInternetGateways req])
     | .error e => (.error e, [.listInternetGateways req]))
  | .natGateways =>
    let req : SListReq := { compartmentId := some compartmentId, vcnId := i.vcnId,
                            limit := jsOrN i.limit 50, displayName := i.displayName }
    (match b.listNatGateways req with
     | .ok items =>
       (.ok { success := true, data := some (.items items), count := some items.length,
              message := some ("Found " ++ toString items.length ++ " NAT gateways") },
        [.listNatGateways req])
     | .error e => (.error e, [.listNatGateways req]))
  | .loadBalancers =>
    let req : SListReq := { compartmentId := some compartmentId, limit := jsOrN i.limit 50,
                            displayName := i.displayName }
    (match b.listLoadBalancers req with
     | .ok items =>
       (.ok { success := true, data := some (.items items), count := some items.length,
              message := some ("Found " ++ toString items.length ++ " load balancers") },
        [.listLoadBalancers req])
     | .error e => (.error e, [.listLoadBalancers req]))

/-- Source `StorageNetworkManager.getResource` (lines 970-1045). -/
def sGetResource (b : SBackend) (i : SGetInput) :
    Except ErrJS Envelope × List SCall :=
  match i.resourceType with
  | .bucket =>
    let ns := resolveNs b i.namespaceName
    (match ns.1 with
     | .error e => (.error e, ns.2)
     | .ok nsName =>
       (match b.getBucket nsName i.resourceId with
        | .ok r =>
          (.ok { success := true, data := some (.one r),
                 message := some ("Retrieved bucket details for " ++ i.resourceId) },
           ns.2 ++ [.getBucket nsName i.resourceId])
        | .error e => (.error e, ns.2 ++ [.getBucket nsName i.resourceId])))
  | .object =>
    if !jsTruthyS i.bucketName || !jsTruthyS i.objectName then
      (.error (throwErr "Bucket name and object name are required"), [])
    else
      let ns := resolveNs b i.namespaceName
      (match ns.1 with
       | .error e => (.error e, ns.2)
       | .ok nsName =>
         (match b.getObject nsName (i.bucketName.getD "") (i.objectName.getD "") with
          | .ok r =>
            (.ok { success := true,
                   data := some (.one { objectName := i.objectName.getD "",
                                        contentLength := r.contentLength,
                                        contentType := r.contentType,
                                        etag := r.etag,
                                        lastModified := r.lastModified }),
                   message := some ("Retrieved object details for " ++ i.objectName.getD "") },
             ns.2 ++ [.getObject nsName (i.bucketName.getD "") (i.objectName.getD "")])
          | .error e =>
            (.error e, ns.2 ++ [.getObject nsName (i.bucketName.getD "") (i.objectName.getD "")])))
  | .vcn =>
    (match b.getVcn i.resourceId with
     | .ok r =>
       (.ok { success := true, data := some (.one r),
              message := some ("Retrieved VCN details for " ++ i.resourceId) },
        [.getVcn i.resourceId])
     | .error e => (.error e, [.getVcn i.resourceId]))
  | .subnet =>
    (match b.getSubnet i.resourceId with
     | .ok r =>
       (.ok { success := true, data := some (.one r),
              message := some ("Retrieved subnet details for " ++ i.resourceId) },
        [.getSubnet i.resourceId])
     | .error e => (.error e, [.getSubnet i.resourceId]))
  | .securityList =>
    (match b.getSecurityListS i.resourceId with
     | .ok r =>
       (.ok { success := true, data := some (.one r),
              message := some ("Retrieved security list details for " ++ i.resourceId) },
        [.getSecurityListS i.resourceId])
     | .error e => (.error e, [.getSecurityListS i.resourceId]))
  | t => (.error (throwErr ("Unsupported resource type: " ++ t.str)), [])

/-- Source `StorageNetworkManager.createResource` (lines 1047-1137). -/
def sCreateResource (b : SBackend) (now : Nat) (t : SCreateType) (d : SCreateData) :
    Except ErrJS Envelope × List SCall :=
  match t with
  | .bucket =>
    let req : CreateBucketReq :=
      { namespaceName := d.namespace_, name := d.name, compartmentId := d.compartmentId,
        storageTier := jsOr d.storageTier "Standard",
        publicAccessType := jsOr d.publicAccessType "NoPublicAccess" }
    (match b.createBucket req with
     | .ok r =>
       (.ok { success := true, data := some (.one r),
              message := some ("Bucket created successfully: " ++ (d.name).getD ""),
              operationId := some ((d.name).getD "") },
        [.createBucket req])
     | .error e => (.error e, [.createBucket req]))
  | .vcn =>
    let details : CreateVcnDetails :=
      { compartmentId := d.compartmentId, cidrBlock := d.cidrBlock,
        displayName := jsOr d.displayName ("vcn-" ++ toString now),
        dnsLabel := d.dnsLabel }
    (match b.createVcn details with
     | .ok r =>
       (.ok { success := true, data := some (.one r),
              message := some ("VCN created successfully: " ++ r.displayName),
              operationId := some r.id },
        [.createVcn details])
     | .error e => (.error e, [.createVcn details]))
  | .subnet =>
    let details : CreateSubnetDetails :=
      { compartmentId := d.compartmentId, vcnId := d.vcnId, cidrBlock := d.cidrBlock,
        availabilityDomain := d.availabilityDomain,
        displayName := jsOr d.displayName ("subnet-" ++ toString now),
        routeTableId := d.routeTableId, securityListIds := d.securityListIds,
        prohibitPublicIpOnVnic := d.prohibitPublicIpOnVnic }
    (match b.createSubnet details with
     | .ok r =>
       (.ok { success := true, data := some (.one r),
              message := some ("Subnet created successfully: " ++ r.displayName),
              operationId := some r.id },
        [.createSubnet details])
     | .error e => (.error e, [.createSubnet details]))
  | .internetGateway =>
    let details : CreateIgwDetails :=
      { compartmentId := d.compartmentId, vcnId := d.vcnId,
        displayName := jsOr d.displayName ("igw-" ++ toString now),
        isEnabled := d.isEnabled ≠ some false }
    (match b.createInternetGateway details with
     | .ok r =>
       (.ok { success := true, data := some (.one r),
              message := some ("Internet Gateway created successfully: " ++ r.displayName),
              operationId := some r.id },
        [.createInternetGateway details])
     | .error e => (.error e, [.createInternetGateway details]))
  | t' => (.error (throwErr ("Unsupported resource type: " ++ t'.str)), [])

/-- Source `StorageNetworkManager.manageObject` (lines 1139-1186): the namespace is
resolved before the action switch, so a backend `getNamespace` call may occur
even when a precondition later fails. -/
def sManageObject (b : SBackend) (i : SManageInput) :
    Except ErrJS Envelope × List SCall :=
  let ns := resolveNs b i.namespaceName
  match ns.1 with
  | .error e => (.error e, ns.2)
  | .ok nsName =>
    match i.action with
    | .uploadObject =>
      if !jsTruthyS i.bucketName || !jsTruthyS i.objectName || !jsTruthyS i.objectContent then
        (.error (throwErr "Bucket name, object name, and content are required for upload"), ns.2)
      else
        let req : PutObjectReq :=
          { namespaceName := nsName, bucketName := i.bucketName, objectName := i.objectName,
            putObjectBody := i.objectContent,
            contentType := jsOr i.contentType "application/octet-stream" }
        (match b.putObject req with
         | .ok _ =>
           (.ok { success := true,
                  message := some ("Object uploaded successfully: " ++ i.objectName.getD ""),
                  operationId := some (i.objectName.getD "") },
            ns.2 ++ [.putObject req])
         | .error e => (.error e, ns.2 ++ [.putObject req]))
    | .deleteObject =>
      if !jsTruthyS i.bucketName || !jsTruthyS i.objectName then
        (.error (throwErr "Bucket name and object name are required for deletion"), ns.2)
      else
        (match b.deleteObject nsName (i.bucketName.getD "") (i.objectName.getD "") with
         | .ok _ =>
           (.ok { success := true,
                  message := some ("Object deleted successfully: " ++ i.objectName.getD ""),
                  operationId := some (i.objectName.getD "") },
            ns.2 ++ [.deleteObject nsName (i.bucketName.getD "") (i.objectName.getD "")])
         | .error e =>
           (.error e, ns.2 ++ [.deleteObject nsName (i.bucketName.getD "") (i.objectName.getD "")]))
    | a => (.error (throwErr ("Unsupported object action: " ++ a.str)), ns.2)

/-- Source `StorageNetworkManager.manageResource` (lines 1188-1229). -/
def sManageResource (b : SBackend) (i : SManageInput) :
    Except ErrJS Envelope × List SCall :=
  match i.action with
  | .deleteBucket =>
    if !jsTruthyS i.bucketName then
      (.error (throwErr "Bucket name is required for deletion"), [])
    else
      let ns := resolveNs b i.namespaceName
      (match ns.1 with
       | .error e => (.error e, ns.2)
       | .ok nsName =>
         (match b.deleteBucket nsName (i.bucketName.getD "") with
          | .ok _ =>
            (.ok { success := true,
                   message := some ("Bucket deleted successfully: " ++ i.bucketName.getD ""),
                   operationId := some (i.bucketName.getD "") },
             ns.2 ++ [.deleteBucket nsName (i.bucketName.getD "")])
          | .error e => (.error e, ns.2 ++ [.deleteBucket nsName (i.bucketName.getD "")])))
  | .deleteVcn =>
    if !jsTruthyS i.resourceId then
      (.error (throwErr "VCN ID is required for deletion"), [])
    else
      (match b.deleteVcn (i.resourceId.getD "") with
       | .ok _ =>
         (.ok { success := true,
                message := some ("VCN deletion initiated: " ++ i.resourceId.getD ""),
                operationId := some (i.resourceId.getD "") },
          [.deleteVcn (i.resourceId.getD "")])
       | .error e => (.error e, [.deleteVcn (i.resourceId.getD "")]))
  | a => (.error (throwErr ("Unsupported management action: " ++ a.str)), [])

/-- Source `StorageNetworkManager.execute` (lines 786-813). -/
def sDispatch (cfg : AuthCfg) (b : SBackend) (now : Nat) (input : SInput) :
    Except ErrJS Envelope × List SCall :=
  match input with
  | .list i => sListResources cfg b i
  | .get i => sGetResource b i
  | .create t d => sCreateResource b now t d
  | .manage i =>
    match i.action with
    | .uploadObject | .downloadObject | .deleteObject => sManageObject b i
    | .deleteBucket | .deleteVcn | .updateSecurityList => sManageResource b i

def sExecute (cfg : AuthCfg) (b : SBackend) (now : Nat) (input : SInput) :
    Envelope × List SCall :=
  match sDispatch cfg b now input with
  | (.ok env, tr) => (env, tr)
  | (.error e, tr) => (failEnv e, tr)

end OCIMCp

namespace OCIMCp

/-! ## Top-level MCP server (full four-tool server, `src/index.ts`)

The `CallToolRequestSchema` handler switches on the tool name; each
`handleXTool` helper wraps zod validation plus the dispatcher's `execute`
in a try/catch that converts any thrown error to an `InvalidParams`
`McpError`. Since `execute` never throws (it is total in the model, as in
the source where it catches internally), the only throw reaching that catch
is a validation failure. The transport wraps the resolved envelope in a
single text content item holding its serialization; the content item is
modelled as carrying the envelope value itself. -/

inductive McpErrorCode where
  | methodNotFound | invalidParams | internalError
deriving DecidableEq, Repr

structure McpError where
  code : McpErrorCode
  message : String
deriving DecidableEq, Repr

/-- The `{ content: [{ type: 'text', text: JSON.stringify(result, null, 2) }] }`
wrapper; each content item carries the envelope it serializes. -/
structure ToolResult where
  content : List Envelope
deriving DecidableEq, Repr

/-- Raw inbound JSON-like argument bags (and the simplified server's
response payloads). `undef` models a JavaScript `undefined` property value. -/
inductive J where
  | null
  | jsUndefined
  | bool (b : Bool)
  | num (n : Int)
  | str (s : String)
  | arr (xs : List J)
  | obj (fields : List (String × J))

/-- Shared shape of `handleComputeTool` / `handleStorageNetworkTool` /
`handleDatabaseAnalyticsTool` / `handleMonitoringSecurityTool`
(index.ts lines 442-524): validate, execute, wrap; any validation throw is
reported as `InvalidParams` with the per-tool message pfx. -/
def handleDomainTool {I C : Type} (parse : J → Except String I)
    (exec : I → Envelope × List C) (pfxMsg : String) (args : J) :
    Except McpError ToolResult :=
  match parse args with
  | .ok input => .ok { content := [(exec input).1] }
  | .error m => .error { code := .invalidParams, message := pfxMsg ++ m }

/-- The `CallToolRequestSchema` handler of the full server (index.ts lines
409-440): a switch on the tool name with a `MethodNotFound` default. The
four parse functions stand for `XToolInputSchema.parse`. -/
def callToolHandler
    (parseC : J → Except String CInput) (parseS : J → Except String SInput)
    (parseD : J → Except String DbInput) (parseM : J → Except String MInput)
    (cfg : AuthCfg) (bc : CBackend) (bs : SBackend) (bd : DbBackend) (bm : MBackend)
    (now : Nat) (name : String) (args : J) : Except McpError ToolResult :=
  if name = "oci-compute" then
    handleDomainTool parseC (cExecute cfg bc now) "Invalid compute tool input: " args
  else if name = "oci-storage-network" then
    handleDomainTool parseS (sExecute cfg bs now) "Invalid storage/network tool input: " args
  else if name = "oci-database-analytics" then
    handleDomainTool parseD (dbExecute cfg bd now) "Invalid database/analytics tool input: " args
  else if name = "oci-monitoring-security" then
    handleDomainTool parseM (mExecute cfg bm) "Invalid monitoring/security tool input: " args
  else
    .error { code := .methodNotFound, message := "Unknown tool: " ++ name }

/-! ## Simplified single-tool server (`index-simple` variant in the repo)

`handleOCIManage` (lines 112-184 of the simplified server): parameter
validation, then the fixed required-environment-variable check producing the
structured guidance payload, then the placeholder success payload. The
function performs no backend operation anywhere; it nevertheless returns an
explicit backend-operation trace (always appended-to-never) so that the
short-circuit property is a stated fact rather than an implicit one. -/

structure SimpleArgs where
  service : Option String := none
  action : Option String := none
  resourceType : Option String := none
  resourceId : Option String := none
  compartmentId : Option String := none
deriving Repr

/-- The fixed required-configuration list (lines 122-128). -/
def requiredEnvVars : List String :=
  ["OCI_TENANCY_ID", "OCI_USER_ID", "OCI_KEY_FINGERPRINT", "OCI_PRIVATE_KEY_PATH", "OCI_REGION"]

/-- Source `requiredEnvVars.filter(varName => !process.env[varName])`. -/
def missingVars (env : String → Option String) : List String :=
  requiredEnvVars.filter (fun v => !jsTruthyS (env v))

/-- The structured configuration-guidance payload (lines 133-159). -/
def guidancePayload (missing : List String) : J :=
  .obj [
    ("success", .bool false),
    ("message", .str ("OCI credentials not configured. Please set the following environment variables: "
                      ++ String.intercalate ", " missing)),
    ("help", .obj [
      ("setup", .str "Configure OCI authentication by setting environment variables"),
      ("variables", .obj [
        ("OCI_TENANCY_ID", .str "Your OCI tenancy OCID"),
        ("OCI_USER_ID", .str "Your OCI user OCID"),
        ("OCI_KEY_FINGERPRINT", .str "Your API key fingerprint"),
        ("OCI_PRIVATE_KEY_PATH", .str "Path to your private key file"),
        ("OCI_REGION", .str "Your preferred OCI region (e.g., us-ashburn-1)")]),
      ("example", .obj [
        ("service", .str "compute"),
        ("action", .str "list"),
        ("resourceType", .str "instances"),
        ("compartmentId", .str "ocid1.compartment.oc1..aaaaaaaa...")])])]

def jOfOpt : Option String → J
  | some s => .str s
  | none => .jsUndefined

/-- The placeholder success payload (lines 163-174). -/
def mockPayload (env : String → Option String) (args : SimpleArgs) : J :=
  .obj [
    ("success", .bool true),
    ("service", jOfOpt args.service),
    ("action", jOfOpt args.action),
    ("resourceType", jOfOpt args.resourceType),
    ("resourceId", jOfOpt args.resourceId),
    ("compartmentId", jOfOpt (jsOrO args.compartmentId
                              (jsOrO (env "OCI_COMPARTMENT_ID") (env "OCI_TENANCY_ID")))),
    ("message", .str ("Would " ++ args.action.getD "" ++ " " ++ args.resourceType.getD "" ++
                      " in " ++ args.service.getD "" ++ " service")),
    ("note", .str "This is a placeholder response. Full OCI integration requires the complete implementation."),
    ("credentials_configured", .bool true),
    ("region", jOfOpt (env "OCI_REGION"))]

/-- Source `OCIMCPServer.handleOCIManage` of the simplified server, with an explicit
(always empty) backend-operation trace. -/
def handleOCIManage (env : String → Option String) (args : SimpleArgs) :
    Except McpError J × List String :=
  if !jsTruthyS args.service || !jsTruthyS args.action || !jsTruthyS args.resourceType then
    (.error { code := .invalidParams,
              message := "Missing required parameters: service, action, resourceType" }, [])
  else
    let missing := missingVars env
    if missing.length > 0 then
      (.ok (guidancePayload missing), [])
    else
      (.ok (mockPayload env args), [])

/-- Field lookup in a JSON object payload. -/
def jLookup (j : J) (k : String) : Option J :=
  match j with
  | .obj fs => fs.lookup k
  | _ => none

end OCIMCp

namespace OCIMCp

/-! ## Helper lemmas -/

/-- Shape of every successfully resolved list envelope: `success = true`,
`data` is an item list and `count` is its length. -/
def listShape (env : Envelope) : Prop :=
  env.success = true ∧ ∃ xs, env.data = some (.items xs) ∧ env.count = some xs.length

theorem jsOrN_len (o : Option (List OCIRec)) :
    jsOrN (o.map List.length) 0 = (o.getD []).length := by
  cases o with
  | none => rfl
  | some xs => by_cases hxs : xs.length = 0 <;> simp [jsOrN, jsTruthyN, hxs]

theorem dbList_ok (cfg : AuthCfg) (b : DbBackend) (i : DbListInput) (env : Envelope)
    (h : (dbListResources cfg b i).1 = .ok env) : listShape env := by
  unfold dbListResources at h
  split at h
  all_goals try simp only [] at h
  all_goals try split at h
  all_goals try simp only [] at h
  all_goals try split at h
  all_goals simp_all [listShape]
  all_goals subst h
  all_goals exact ⟨rfl, _, rfl, rfl⟩

theorem cList_ok (cfg : AuthCfg) (b : CBackend) (i : CListInput) (env : Envelope)
    (h : (cListResources cfg b i).1 = .ok env) : listShape env := by
  unfold cListResources at h
  split at h
  all_goals try simp only [] at h
  all_goals try split at h
  all_goals try simp only [] at h
  all_goals try split at h
  all_goals simp_all [listShape]
  all_goals subst h
  all_goals exact ⟨rfl, _, rfl, rfl⟩

theorem mList_ok (cfg : AuthCfg) (b : MBackend) (i : MListInput) (env : Envelope)
    (h : (mListResources cfg b i).1 = .ok env) : listShape env := by
  unfold mListResources at h
  split at h
  all_goals try simp only [] at h
  all_goals try split at h
  all_goals try simp only [] at h
  all_goals try split at h
  all_goals simp_all [listShape]
  all_goals subst h
  all_goals exact ⟨rfl, _, rfl, rfl⟩

theorem sList_ok (cfg : AuthCfg) (b : SBackend) (i : SListInput) (env : Envelope)
    (h : (sListResources cfg b i).1 = .ok env) : listShape env := by
  unfold sListResources at h
  split at h
  all_goals try simp only [] at h
  all_goals try split at h
  all_goals try simp only [] at h
  all_goals try split at h
  all_goals try simp only [] at h
  all_goals try split at h
  all_goals simp_all [listShape]
  all_goals subst h
  all_goals first
    | exact ⟨rfl, _, rfl, rfl⟩
    | exact ⟨rfl, _, rfl, congrArg some (jsOrN_len _)⟩

end OCIMCp

namespace OCIMCp

theorem dbGet_ok (b : DbBackend) (t : DbGetType) (rid : String) (env : Envelope)
    (h : (dbGetResource b t rid).1 = .ok env) : env.success = true := by
  unfold dbGetResource at h
  split at h
  all_goals try simp only [] at h
  all_goals try split at h
  all_goals simp_all
  all_goals subst h
  all_goals rfl

theorem dbCreate_ok (b : DbBackend) (t : DbCreateType) (d : DbCreateData) (env : Envelope)
    (h : (dbCreateResource b t d).1 = .ok env) : env.success = true := by
  unfold dbCreateResource at h
  split at h
  all_goals try simp only [] at h
  all_goals try split at h
  all_goals simp_all
  all_goals subst h
  all_goals rfl

theorem dbManage_ok (cfg : AuthCfg) (b : DbBackend) (now : Nat) (i : DbManageInput)
    (env : Envelope) (h : (dbManageResource cfg b now i).1 = .ok env) : env.success = true := by
  unfold dbManageResource at h
  split at h
  all_goals try simp only [] at h
  all_goals try split at h
  all_goals try simp only [] at h
  all_goals try split at h
  all_goals simp_all
  all_goals subst h
  all_goals rfl

theorem cGet_ok (b : CBackend) (t : CGetType) (rid : String) (env : Envelope)
    (h : (cGetResource b t rid).1 = .ok env) : env.success = true := by
  unfold cGetResource at h
  split at h
  all_goals try simp only [] at h
  all_goals try split at h
  all_goals simp_all
  all_goals subst h
  all_goals rfl

theorem cCreate_ok (b : CBackend) (now : Nat) (t : CCreateType) (d : CCreateData)
    (env : Envelope) (h : (cCreateResource b now t d).1 = .ok env) : env.success = true := by
  unfold cCreateResource at h
  split at h
  all_goals try simp only [] at h
  all_goals try split at h
  all_goals simp_all
  all_goals subst h
  all_goals rfl

theorem cManageInstance_ok (b : CBackend) (i : CManageInput) (env : Envelope)
    (h : (cManageInstance b i).1 = .ok env) : env.success = true := by
  unfold cManageInstance at h
  split at h
  all_goals try simp only [] at h
  all_goals try split at h
  all_goals simp_all
  all_goals subst h
  all_goals rfl

theorem cManageVolume_ok (b : CBackend) (i : CManageInput) (env : Envelope)
    (h : (cManageVolume b i).1 = .ok env) : env.success = true := by
  unfold cManageVolume at h
  split at h
  all_goals try simp only [] at h
  all_goals try split at h
  all_goals try simp only [] at h
  all_goals try split at h
  all_goals simp_all
  all_goals subst h
  all_goals rfl

theorem mGet_ok (b : MBackend) (t : MGetType) (rid : String) (env : Envelope)
    (h : (mGetResource b t rid).1 = .ok env) : env.success = true := by
  unfold mGetResource at h
  split at h
  all_goals try simp only [] at h
  all_goals try split at h
  all_goals simp_all
  all_goals subst h
  all_goals rfl

theorem mCreate_ok (b : MBackend) (t : MCreateType) (d : MCreateData) (env : Envelope)
    (h : (mCreateResource b t d).1 = .ok env) : env.success = true := by
  unfold mCreateResource at h
  split at h
  all_goals try simp only [] at h
  all_goals try split at h
  all_goals try simp only [] at h
  all_goals try split at h
  all_goals try simp only [] at h
  all_goals try split at h
  all_goals simp_all
  all_goals subst h
  all_goals rfl

theorem mManage_ok (b : MBackend) (i : MManageInput) (env : Envelope)
    (h : (mManageResource b i).1 = .ok env) : env.success = true := by
  unfold mManageResource at h
  split at h
  all_goals try simp only [] at h
  all_goals try split at h
  all_goals try simp only [] at h
  all_goals try split at h
  all_goals simp_all
  all_goals subst h
  all_goals rfl

theorem sGet_ok (b : SBackend) (i : SGetInput) (env : Envelope)
    (h : (sGetResource b i).1 = .ok env) : env.success = true := by
  unfold sGetResource at h
  split at h
  all_goals try simp only [] at h
  all_goals try split at h
  all_goals try simp only [] at h
  all_goals try split at h
  all_goals try simp only [] at h
  all_goals try split at h
  all_goals simp_all
  all_goals subst h
  all_goals rfl

theorem sCreate_ok (b : SBackend) (now : Nat) (t : SCreateType) (d : SCreateData)
    (env : Envelope) (h : (sCreateResource b now t d).1 = .ok env) : env.success = true := by
  unfold sCreateResource at h
  split at h
  all_goals try simp only [] at h
  all_goals try split at h
  all_goals simp_all
  all_goals subst h
  all_goals rfl

theorem sManageObject_ok (b : SBackend) (i : SManageInput) (env : Envelope)
    (h : (sManageObject b i).1 = .ok env) : env.success = true := by
  unfold sManageObject at h
  split at h
  all_goals try simp only [] at h
  all_goals try split at h
  all_goals try simp only [] at h
  all_goals try split at h
  all_goals try simp only [] at h
  all_goals try split at h
  all_goals simp_all
  all_goals subst h
  all_goals rfl

theorem sManageResource_ok (b : SBackend) (i : SManageInput) (env : Envelope)
    (h : (sManageResource b i).1 = .ok env) : env.success = true := by
  unfold sManageResource at h
  split at h
  all_goals try simp only [] at h
  all_goals try split at h
  all_goals try simp only [] at h
  all_goals try split at h
  all_goals try simp only [] at h
  all_goals try split at h
  all_goals simp_all
  all_goals subst h
  all_goals rfl

end OCIMCp

namespace OCIMCp

theorem dbDispatch_ok (cfg : AuthCfg) (b : DbBackend) (now : Nat) (input : DbInput)
    (env : Envelope) (h : (dbDispatch cfg b now input).1 = .ok env) : env.success = true := by
  cases input with
  | list i => exact (dbList_ok cfg b i env h).1
  | get t rid => exact dbGet_ok b t rid env h
  | create t d => exact dbCreate_ok b t d env h
  | manage i => exact dbManage_ok cfg b now i env h

theorem cDispatch_ok (cfg : AuthCfg) (b : CBackend) (now : Nat) (input : CInput)
    (env : Envelope) (h : (cDispatch cfg b now input).1 = .ok env) : env.success = true := by
  cases input with
  | list i => exact (cList_ok cfg b i env h).1
  | get t rid => exact cGet_ok b t rid env h
  | create t d => exact cCreate_ok b now t d env h
  | manage i =>
    cases ha : i.action <;>
      simp only [cDispatch, ha] at h <;>
      first
        | exact cManageInstance_ok b i env h
        | exact cManageVolume_ok b i env h

theorem mDispatch_ok (cfg : AuthCfg) (b : MBackend) (input : MInput)
    (env : Envelope) (h : (mDispatch cfg b input).1 = .ok env) : env.success = true := by
  cases input with
  | list i => exact (mList_ok cfg b i env h).1
  | get t rid lg sn => exact mGet_ok b t rid env h
  | create t d => exact mCreate_ok b t d env h
  | manage i => exact mManage_ok b i env h

theorem sDispatch_ok (cfg : AuthCfg) (b : SBackend) (now : Nat) (input : SInput)
    (env : Envelope) (h : (sDispatch cfg b now input).1 = .ok env) : env.success = true := by
  cases input with
  | list i => exact (sList_ok cfg b i env h).1
  | get i => exact sGet_ok b i env h
  | create t d => exact sCreate_ok b now t d env h
  | manage i =>
    cases ha : i.action <;>
      simp only [sDispatch, ha] at h <;>
      first
        | exact sManageObject_ok b i env h
        | exact sManageResource_ok b i env h

theorem dbExec_fail (cfg : AuthCfg) (b : DbBackend) (now : Nat) (input : DbInput)
    (env : Envelope) (tr : List DbCall) (h : dbExecute cfg b now input = (env, tr))
    (hs : env.success = false) : env.message.isSome ∧ env.data = none := by
  unfold dbExecute at h
  split at h
  · rename_i env' tr' heq
    have hsucc := dbDispatch_ok cfg b now input env' (by rw [heq])
    injection h with h1 h2
    subst h1
    simp_all
  · rename_i e tr' heq
    injection h with h1 h2
    subst h1
    exact ⟨rfl, rfl⟩

theorem cExec_fail (cfg : AuthCfg) (b : CBackend) (now : Nat) (input : CInput)
    (env : Envelope) (tr : List CCall) (h : cExecute cfg b now input = (env, tr))
    (hs : env.success = false) : env.message.isSome ∧ env.data = none := by
  unfold cExecute at h
  split at h
  · rename_i env' tr' heq
    have hsucc := cDispatch_ok cfg b now input env' (by rw [heq])
    injection h with h1 h2
    subst h1
    simp_all
  · rename_i e tr' heq
    injection h with h1 h2
    subst h1
    exact ⟨rfl, rfl⟩

theorem mExec_fail (cfg : AuthCfg) (b : MBackend) (input : MInput)
    (env : Envelope) (tr : List MCall) (h : mExecute cfg b input = (env, tr))
    (hs : env.success = false) : env.message.isSome ∧ env.data = none := by
  unfold mExecute at h
  split at h
  · rename_i env' tr' heq
    have hsucc := mDispatch_ok cfg b input env' (by rw [heq])
    injection h with h1 h2
    subst h1
    simp_all
  · rename_i e tr' heq
    injection h with h1 h2
    subst h1
    exact ⟨rfl, rfl⟩

theorem sExec_fail (cfg : AuthCfg) (b : SBackend) (now : Nat) (input : SInput)
    (env : Envelope) (tr : List SCall) (h : sExecute cfg b now input = (env, tr))
    (hs : env.success = false) : env.message.isSome ∧ env.data = none := by
  unfold sExecute at h
  split at h
  · rename_i env' tr' heq
    have hsucc := sDispatch_ok cfg b now input env' (by rw [heq])
    injection h with h1 h2
    subst h1
    simp_all
  · rename_i e tr' heq
    injection h with h1 h2
    subst h1
    exact ⟨rfl, rfl⟩

end OCIMCp

namespace OCIMCp

theorem dbExecList_shape (cfg : AuthCfg) (b : DbBackend) (now : Nat) (i : DbListInput)
    (env : Envelope) (tr : List DbCall) (h : dbExecute cfg b now (.list i) = (env, tr))
    (hs : env.success = true) :
    ∃ xs, env.data = some (EnvData.items xs) ∧ env.count = some xs.length := by
  unfold dbExecute at h
  split at h
  · rename_i env' tr' heq
    injection h with h1 h2
    subst h1
    exact (dbList_ok cfg b i env' (congrArg Prod.fst heq)).2
  · rename_i e tr' heq
    injection h with h1 h2
    subst h1
    simp [failEnv] at hs

theorem cExecList_shape (cfg : AuthCfg) (b : CBackend) (now : Nat) (i : CListInput)
    (env : Envelope) (tr : List CCall) (h : cExecute cfg b now (.list i) = (env, tr))
    (hs : env.success = true) :
    ∃ xs, env.data = some (EnvData.items xs) ∧ env.count = some xs.length := by
  unfold cExecute at h
  split at h
  · rename_i env' tr' heq
    injection h with h1 h2
    subst h1
    exact (cList_ok cfg b i env' (congrArg Prod.fst heq)).2
  · rename_i e tr' heq
    injection h with h1 h2
    subst h1
    simp [failEnv] at hs

theorem mExecList_shape (cfg : AuthCfg) (b : MBackend) (i : MListInput)
    (env : Envelope) (tr : List MCall) (h : mExecute cfg b (.list i) = (env, tr))
    (hs : env.success = true) :
    ∃ xs, env.data = some (EnvData.items xs) ∧ env.count = some xs.length := by
  unfold mExecute at h
  split at h
  · rename_i env' tr' heq
    injection h with h1 h2
    subst h1
    exact (mList_ok cfg b i env' (congrArg Prod.fst heq)).2
  · rename_i e tr' heq
    injection h with h1 h2
    subst h1
    simp [failEnv] at hs

theorem sExecList_shape (cfg : AuthCfg) (b : SBackend) (now : Nat) (i : SListInput)
    (env : Envelope) (tr : List SCall) (h : sExecute cfg b now (.list i) = (env, tr))
    (hs : env.success = true) :
    ∃ xs, env.data = some (EnvData.items xs) ∧ env.count = some xs.length := by
  unfold sExecute at h
  split at h
  · rename_i env' tr' heq
    injection h with h1 h2
    subst h1
    exact (sList_ok cfg b i env' (congrArg Prod.fst heq)).2
  · rename_i e tr' heq
    injection h with h1 h2
    subst h1
    simp [failEnv] at hs

/-! ## Claim theorems -/

/-- Claim C2: for every validated input and every backend outcome, each domain
dispatcher's `execute` resolves with a response envelope (it is a total
function of its input and backend oracle — nothing escapes the boundary), and
whenever the resolved envelope has `success = false` it carries a `message`
string and the `data` field is omitted. Stated for all four domain
dispatchers (compute, storage-network, database-analytics,
monitoring-security). -/
theorem spec_C2_execute_failure_envelope :
    (∀ cfg b now input env tr, cExecute cfg b now input = (env, tr) →
        env.success = false → env.message.isSome ∧ env.data = none)
  ∧ (∀ cfg b now input env tr, sExecute cfg b now input = (env, tr) →
        env.success = false → env.message.isSome ∧ env.data = none)
  ∧ (∀ cfg b now input env tr, dbExecute cfg b now input = (env, tr) →
        env.success = false → env.message.isSome ∧ env.data = none)
  ∧ (∀ cfg b input env tr, mExecute cfg b input = (env, tr) →
        env.success = false → env.message.isSome ∧ env.data = none) :=
  ⟨fun cfg b now input env tr h hs => cExec_fail cfg b now input env tr h hs,
   fun cfg b now input env tr h hs => sExec_fail cfg b now input env tr h hs,
   fun cfg b now input env tr h hs => dbExec_fail cfg b now input env tr h hs,
   fun cfg b input env tr h hs => mExec_fail cfg b input env tr h hs⟩

/-- Witness for C2: with the default (always-rejecting) backends, a concrete
call to each dispatcher resolves to a failure envelope carrying a message and
no data. -/
theorem spec_C2_witness :
    ((cExecute { tenancyId := "t" } {} 0 (.get .instance_ "i1")).1.message.isSome
      ∧ (cExecute { tenancyId := "t" } {} 0 (.get .instance_ "i1")).1.data = none)
  ∧ ((sExecute { tenancyId := "t" } {} 0 (.get { resourceType := .vcn, resourceId := "v1" })).1.message.isSome
      ∧ (sExecute { tenancyId := "t" } {} 0 (.get { resourceType := .vcn, resourceId := "v1" })).1.data = none)
  ∧ ((dbExecute { tenancyId := "t" } {} 0 (.get .database "d1")).1.message.isSome
      ∧ (dbExecute { tenancyId := "t" } {} 0 (.get .database "d1")).1.data = none)
  ∧ ((mExecute { tenancyId := "t" } {} (.get .alarm "a1" none none)).1.message.isSome
      ∧ (mExecute { tenancyId := "t" } {} (.get .alarm "a1" none none)).1.data = none) :=
  ⟨spec_C2_execute_failure_envelope.1 { tenancyId := "t" } {} 0 (.get .instance_ "i1") _ _ rfl rfl,
   spec_C2_execute_failure_envelope.2.1 { tenancyId := "t" } {} 0
     (.get { resourceType := .vcn, resourceId := "v1" }) _ _ rfl rfl,
   spec_C2_execute_failure_envelope.2.2.1 { tenancyId := "t" } {} 0 (.get .database "d1") _ _ rfl rfl,
   spec_C2_execute_failure_envelope.2.2.2 { tenancyId := "t" } {} (.get .alarm "a1" none none) _ _ rfl rfl⟩

/-- Claim C4: for every list action successfully dispatched by any of the four
domain dispatchers, the returned List envelope satisfies
`count = length(data)`. -/
theorem spec_C4_list_count_matches :
    (∀ cfg b now i env tr, cExecute cfg b now (.list i) = (env, tr) → env.success = true →
        ∃ xs, env.data = some (EnvData.items xs) ∧ env.count = some xs.length)
  ∧ (∀ cfg b now i env tr, sExecute cfg b now (.list i) = (env, tr) → env.success = true →
        ∃ xs, env.data = some (EnvData.items xs) ∧ env.count = some xs.length)
  ∧ (∀ cfg b now i env tr, dbExecute cfg b now (.list i) = (env, tr) → env.success = true →
        ∃ xs, env.data = some (EnvData.items xs) ∧ env.count = some xs.length)
  ∧ (∀ cfg b i env tr, mExecute cfg b (.list i) = (env, tr) → env.success = true →
        ∃ xs, env.data = some (EnvData.items xs) ∧ env.count = some xs.length) :=
  ⟨fun cfg b now i env tr h hs => cExecList_shape cfg b now i env tr h hs,
   fun cfg b now i env tr h hs => sExecList_shape cfg b now i env tr h hs,
   fun cfg b now i env tr h hs => dbExecList_shape cfg b now i env tr h hs,
   fun cfg b i env tr h hs => mExecList_shape cfg b i env tr h hs⟩

/-- Witness for C4: concrete successful list calls in all four domains whose
envelopes satisfy the count invariant. -/
theorem spec_C4_witness :
    (∃ xs, (cExecute { tenancyId := "t" } { listInstances := fun _ => .ok [{}] } 0
              (.list { resourceType := .instances })).1.data = some (EnvData.items xs)
        ∧ (cExecute { tenancyId := "t" } { listInstances := fun _ => .ok [{}] } 0
              (.list { resourceType := .instances })).1.count = some xs.length)
  ∧ (∃ xs, (sExecute { tenancyId := "t" } { listVcns := fun _ => .ok [{}, {}] } 0
              (.list { resourceType := .vcns })).1.data = some (EnvData.items xs)
        ∧ (sExecute { tenancyId := "t" } { listVcns := fun _ => .ok [{}, {}] } 0
              (.list { resourceType := .vcns })).1.count = some xs.length)
  ∧ (∃ xs, (dbExecute { tenancyId := "t" } { listBackups := fun _ => .ok [] } 0
              (.list { resourceType := .backups })).1.data = some (EnvData.items xs)
        ∧ (dbExecute { tenancyId := "t" } { listBackups := fun _ => .ok [] } 0
              (.list { resourceType := .backups })).1.count = some xs.length)
  ∧ (∃ xs, (mExecute { tenancyId := "t" } { listUsers := fun _ => .ok [{}] }
              (.list { resourceType := .users })).1.data = some (EnvData.items xs)
        ∧ (mExecute { tenancyId := "t" } { listUsers := fun _ => .ok [{}] }
              (.list { resourceType := .users })).1.count = some xs.length) :=
  ⟨spec_C4_list_count_matches.1 { tenancyId := "t" } { listInstances := fun _ => .ok [{}] } 0
     { resourceType := .instances } _ _ rfl rfl,
   spec_C4_list_count_matches.2.1 { tenancyId := "t" } { listVcns := fun _ => .ok [{}, {}] } 0
     { resourceType := .vcns } _ _ rfl rfl,
   spec_C4_list_count_matches.2.2.1 { tenancyId := "t" } { listBackups := fun _ => .ok [] } 0
     { resourceType := .backups } _ _ rfl rfl,
   spec_C4_list_count_matches.2.2.2 { tenancyId := "t" } { listUsers := fun _ => .ok [{}] }
     { resourceType := .users } _ _ rfl rfl⟩

end OCIMCp

namespace OCIMCp

/-- Claim C3: the Error Classifier's classification order — statusCode branch
first, then code branch, else the generic branch using the error's message or
its string form; and the concrete 404/NotFound rejection formats exactly as
`"OCI API Error (404): NotFound"`. ("Carries" a statusCode/code is the
source's JavaScript truthiness test: present and non-zero / non-empty.) -/
theorem spec_C3_error_classifier :
    (∀ (e : ErrJS) (n : Nat) (m : String), e.statusCode = some n → n ≠ 0 →
        e.message = some m → m ≠ "" →
        handleOCIError e = "OCI API Error (" ++ toString n ++ "): " ++ m)
  ∧ (∀ (e : ErrJS) (c m : String), jsTruthyN e.statusCode = false →
        e.code = some c → c ≠ "" → e.message = some m → m ≠ "" →
        handleOCIError e = "OCI Error (" ++ c ++ "): " ++ m)
  ∧ (∀ (e : ErrJS), jsTruthyN e.statusCode = false → jsTruthyS e.code = false →
        handleOCIError e = "OCI Error: " ++ jsOr e.message e.str)
  ∧ handleOCIError { statusCode := some 404, message := some "NotFound" } =
      "OCI API Error (404): NotFound" := by
  refine ⟨?_, ?_, ?_, by decide⟩
  · intro e n m h1 h2 h3 h4
    simp [handleOCIError, jsTruthyN, jsOr, jsTruthyS, h1, h2, h3, h4]
  · intro e c m h1 h2 h3 h4 h5
    simp [handleOCIError, jsOr, jsTruthyS, h1, h2, h3, h4, h5]
  · intro e h1 h2
    simp [handleOCIError, h1, h2]

/-- Witness for C3: each classifier branch evaluated at a concrete error. -/
theorem spec_C3_witness :
    handleOCIError { statusCode := some 404, message := some "NotFound" } =
      "OCI API Error (" ++ toString (404 : Nat) ++ "): " ++ "NotFound"
  ∧ handleOCIError { code := some "LimitExceeded", message := some "too many" } =
      "OCI Error (" ++ "LimitExceeded" ++ "): " ++ "too many"
  ∧ handleOCIError { message := some "boom", str := "Error: boom" } =
      "OCI Error: " ++ jsOr (some "boom") "Error: boom" :=
  ⟨spec_C3_error_classifier.1 { statusCode := some 404, message := some "NotFound" } 404 "NotFound"
     rfl (by decide) rfl (by decide),
   spec_C3_error_classifier.2.1 { code := some "LimitExceeded", message := some "too many" }
     "LimitExceeded" "too many" rfl rfl (by decide) rfl (by decide),
   spec_C3_error_classifier.2.2.1 { message := some "boom", str := "Error: boom" } rfl rfl⟩

/-- Claim C6: for a create `autonomous-database` call whose data payload
supplies only the five required fields, the constructed
`createAutonomousDatabaseDetails` defaults `dbWorkload` to `"OLTP"`,
`isAutoScalingEnabled` to `false`, `isFreeTier` to `false` and `licenseModel`
to `"LICENSE_INCLUDED"` (the exact constructed request is asserted), and the
dispatcher's single backend call carries exactly that request. -/
theorem spec_C6_adb_create_defaults :
    ∀ (b : DbBackend) (c n : String) (cpu st : Nat) (pw : String),
    mkCreateAdbDetails (.adb (AdbCreateData.mk c n cpu st pw none none none none none none none none)) =
      CreateAdbDetails.mk (some c) (some n) (some cpu) (some st) (some pw) (some n) none
        "OLTP" false false "LICENSE_INCLUDED" none none
    ∧ (dbCreateResource b .autonomousDatabase
        (.adb (AdbCreateData.mk c n cpu st pw none none none none none none none none))).2 =
      [.createAutonomousDatabase (mkCreateAdbDetails
        (.adb (AdbCreateData.mk c n cpu st pw none none none none none none none none)))] := by
  intro b c n cpu st pw
  constructor
  · rfl
  · cases hb : b.createAutonomousDatabase (mkCreateAdbDetails
        (.adb (AdbCreateData.mk c n cpu st pw none none none none none none none none))) <;>
      simp [dbCreateResource, hb]

/-- Claim C7: a list `databases` call supplying neither `dbSystemId` nor
`dbHomeId` is rejected before any backend call (empty trace) and the failure
message names both required alternatives. -/
theorem spec_C7_databases_requires_ids :
    ∀ (cfg : AuthCfg) (b : DbBackend) (now : Nat) (i : DbListInput),
    i.resourceType = .databases → jsTruthyS i.dbSystemId = false → jsTruthyS i.dbHomeId = false →
    dbExecute cfg b now (.list i) =
      ({ success := false,
         message := some "OCI Error: Either dbSystemId or dbHomeId is required for listing databases" },
       [])
    ∧ ("dbSystemId".data <:+:
        "OCI Error: Either dbSystemId or dbHomeId is required for listing databases".data)
    ∧ ("dbHomeId".data <:+:
        "OCI Error: Either dbSystemId or dbHomeId is required for listing databases".data) := by
  intro cfg b now i h1 h2 h3
  refine ⟨?_, by decide, by decide⟩
  rcases i with ⟨rt, c, ds, dh, l, dn, ls⟩
  simp only at h1 h2 h3
  subst h1
  have hlist : dbListResources cfg b (DbListInput.mk .databases c ds dh l dn ls) =
      (.error (throwErr "Either dbSystemId or dbHomeId is required for listing databases"), []) := by
    unfold dbListResources
    simp [h2, h3]
  simp only [dbExecute, dbDispatch]
  rw [hlist]
  decide

/-- Witness for C7: the concrete bare list-databases call. -/
theorem spec_C7_witness :
    dbExecute { tenancyId := "t" } {} 0 (.list { resourceType := .databases }) =
      ({ success := false,
         message := some "OCI Error: Either dbSystemId or dbHomeId is required for listing databases" },
       []) :=
  (spec_C7_databases_requires_ids { tenancyId := "t" } {} 0 { resourceType := .databases }
    rfl rfl rfl).1

/-- Claim C8: a manage `attach-volume` call missing `instanceId` (or,
symmetrically, `volumeId`) is rejected with a precondition failure and the
backend's attach operation is never invoked (empty call trace). -/
theorem spec_C8_attach_volume_requires_ids :
    ∀ (cfg : AuthCfg) (b : CBackend) (now : Nat) (i : CManageInput),
    i.action = .attachVolume →
    (jsTruthyS i.instanceId = false ∨ jsTruthyS i.volumeId = false) →
    cExecute cfg b now (.manage i) =
      ({ success := false,
         message := some "OCI Error: Both instanceId and volumeId are required for volume attachment" },
       []) := by
  intro cfg b now i h1 h2
  rcases i with ⟨a, rt, rid, iid, vid⟩
  simp only at h1 h2
  subst h1
  have hvol : cManageVolume b (CManageInput.mk .attachVolume rt rid iid vid) =
      (.error (throwErr "Both instanceId and volumeId are required for volume attachment"), []) := by
    unfold cManageVolume
    rcases h2 with h | h <;> simp [h]
  simp only [cExecute, cDispatch]
  rw [hvol]
  decide

/-- Witness for C8: attach-volume with only `volumeId` set. -/
theorem spec_C8_witness :
    cExecute { tenancyId := "t" } {} 0
      (.manage { action := .attachVolume, resourceType := .volume, resourceId := "va1",
                 volumeId := some "v1" }) =
      ({ success := false,
         message := some "OCI Error: Both instanceId and volumeId are required for volume attachment" },
       []) :=
  spec_C8_attach_volume_requires_ids { tenancyId := "t" } {} 0
    { action := .attachVolume, resourceType := .volume, resourceId := "va1",
      volumeId := some "v1" } rfl (.inl rfl)

end OCIMCp

namespace OCIMCp

/-- Claim C5: while any of the five required configuration values is absent
(JavaScript-falsy in the environment), every well-formed `oci-manage` call
returns the structured configuration-guidance envelope — `success = false`,
a message listing the missing variables, and a `help` payload with
remediation instructions (`setup`, `variables`) and an example call — and the
backend-operation trace is empty (no backend operation is invoked; the
handler contains no backend call on this path). -/
theorem spec_C5_config_guidance :
    ∀ (env : String → Option String) (args : SimpleArgs),
    jsTruthyS args.service = true → jsTruthyS args.action = true →
    jsTruthyS args.resourceType = true → missingVars env ≠ [] →
    handleOCIManage env args = (.ok (guidancePayload (missingVars env)), [])
    ∧ jLookup (guidancePayload (missingVars env)) "success" = some (.bool false)
    ∧ jLookup (guidancePayload (missingVars env)) "message" =
        some (.str ("OCI credentials not configured. Please set the following environment variables: "
          ++ String.intercalate ", " (missingVars env)))
    ∧ (∃ hj, jLookup (guidancePayload (missingVars env)) "help" = some hj
        ∧ (jLookup hj "setup").isSome ∧ (jLookup hj "variables").isSome
        ∧ (jLookup hj "example").isSome) := by
  intro env args h1 h2 h3 hm
  have hlen : 0 < (missingVars env).length := List.length_pos.mpr hm
  refine ⟨?_, rfl, rfl, ⟨_, rfl, rfl, rfl, rfl⟩⟩
  unfold handleOCIManage
  simp [h1, h2, h3, hlen]

/-- Witness for C5: empty environment, well-formed call. -/
theorem spec_C5_witness :
    handleOCIManage (fun _ => none)
        (SimpleArgs.mk (some "compute") (some "list") (some "instances") none none) =
      (.ok (guidancePayload (missingVars (fun _ => none))), [])
    ∧ jLookup (guidancePayload (missingVars (fun _ => none))) "success" = some (.bool false) :=
  ⟨(spec_C5_config_guidance (fun _ => none)
      (SimpleArgs.mk (some "compute") (some "list") (some "instances") none none)
      (by decide) (by decide) (by decide) (by decide)).1,
   (spec_C5_config_guidance (fun _ => none)
      (SimpleArgs.mk (some "compute") (some "list") (some "instances") none none)
      (by decide) (by decide) (by decide) (by decide)).2.1⟩

end OCIMCp

namespace OCIMCp

theorem addRulesLoop_all_ok (b : MBackend) (gid : String) :
    ∀ rs : List SecRuleC, (∀ r ∈ rs, b.addNsgSecurityRulesC gid [r] = .ok ()) →
    addRulesLoop b gid rs = (.ok (), rs.map fun r => .addNsgSecurityRulesC gid [r]) := by
  intro rs
  induction rs with
  | nil => intro _; rfl
  | cons r rest ih =>
    intro hall
    have hr := hall r (List.mem_cons_self r rest)
    have hrest := ih (fun x hx => hall x (List.mem_cons_of_mem r hx))
    simp [addRulesLoop, hr, hrest]

theorem addRulesLoop_fail (b : MBackend) (gid : String) (e : ErrJS) (y : SecRuleC) :
    ∀ pre post : List SecRuleC,
    (∀ r ∈ pre, b.addNsgSecurityRulesC gid [r] = .ok ()) →
    b.addNsgSecurityRulesC gid [y] = .error e →
    addRulesLoop b gid (pre ++ y :: post) =
      (.error e, (pre ++ [y]).map fun r => .addNsgSecurityRulesC gid [r]) := by
  intro pre
  induction pre with
  | nil =>
    intro post _ hy
    simp [addRulesLoop, hy]
  | cons r rest ih =>
    intro post hall hy
    have hr := hall r (by simp)
    have hrest := ih post (fun x hx => hall x (by simp [hx])) hy
    simp [addRulesLoop, hr, hrest]

/-- Claim C9: creating a network-security-group with inline rules performs
exactly one creation backend call followed by one add-rule call per rule in
payload order; the rule applications are independent and non-transactional —
if the add-rule call for rule `y` (preceded by the rules `pre`, all accepted)
fails, the creation call and the `pre` calls have already been performed,
nothing is rolled back (the trace is exactly the creation call plus the
attempted add-rule calls, with no compensating call), and the overall result
is a failure envelope. -/
theorem spec_C9_nsg_rules_not_transactional :
    (∀ (cfg : AuthCfg) (b : MBackend) (d : NsgCreateData) (g : OCIRec) (rs : List SecRuleC),
      d.securityRules = some rs →
      b.createNetworkSecurityGroup (mkCreateNsgDetails (.nsg d)) = .ok g →
      (∀ r ∈ rs, b.addNsgSecurityRulesC g.id [r] = .ok ()) →
      (mExecute cfg b (.create .networkSecurityGroup (.nsg d))).2 =
        .createNetworkSecurityGroup (mkCreateNsgDetails (.nsg d)) ::
          rs.map (fun r => .addNsgSecurityRulesC g.id [r])
      ∧ (mExecute cfg b (.create .networkSecurityGroup (.nsg d))).1.success = true)
  ∧ (∀ (cfg : AuthCfg) (b : MBackend) (d : NsgCreateData) (g : OCIRec)
        (pre post : List SecRuleC) (y : SecRuleC) (e : ErrJS),
      d.securityRules = some (pre ++ y :: post) →
      b.createNetworkSecurityGroup (mkCreateNsgDetails (.nsg d)) = .ok g →
      (∀ r ∈ pre, b.addNsgSecurityRulesC g.id [r] = .ok ()) →
      b.addNsgSecurityRulesC g.id [y] = .error e →
      mExecute cfg b (.create .networkSecurityGroup (.nsg d)) =
        (failEnv e,
         .createNetworkSecurityGroup (mkCreateNsgDetails (.nsg d)) ::
           (pre ++ [y]).map (fun r => .addNsgSecurityRulesC g.id [r]))) := by
  constructor
  · intro cfg b d g rs hrs hcr hall
    have hloop := addRulesLoop_all_ok b g.id rs hall
    rcases rs with _ | ⟨r0, rtl⟩
    · constructor <;>
        simp [mExecute, mDispatch, mCreateResource, MCreateData.securityRules, hrs, hcr]
    · constructor <;>
        simp [mExecute, mDispatch, mCreateResource, MCreateData.securityRules, hrs, hcr, hloop]
  · intro cfg b d g pre post y e hrs hcr hall hy
    have hloop := addRulesLoop_fail b g.id e y pre post hall hy
    have hpos : 0 < (pre ++ y :: post).length := by simp
    simp [mExecute, mDispatch, mCreateResource, MCreateData.securityRules, hrs, hcr, hloop, hpos]

/-- Witness for C9: two inline rules, the second add-rule call rejected. -/
theorem spec_C9_witness :
    mExecute { tenancyId := "t" }
      { createNetworkSecurityGroup := fun _ => .ok { id := "g1" },
        addNsgSecurityRulesC := fun _ rs =>
          if rs = [SecRuleC.mk "EGRESS" "6" none none none none none] then
            .error { statusCode := some 500 }
          else .ok () }
      (.create .networkSecurityGroup
        (.nsg (NsgCreateData.mk "c1" "v1" "nsg1"
          (some [SecRuleC.mk "INGRESS" "6" none none none none none,
                 SecRuleC.mk "EGRESS" "6" none none none none none])))) =
      (failEnv { statusCode := some 500 },
       .createNetworkSecurityGroup (mkCreateNsgDetails (.nsg (NsgCreateData.mk "c1" "v1" "nsg1"
          (some [SecRuleC.mk "INGRESS" "6" none none none none none,
                 SecRuleC.mk "EGRESS" "6" none none none none none])))) ::
         ([SecRuleC.mk "INGRESS" "6" none none none none none] ++
            [SecRuleC.mk "EGRESS" "6" none none none none none]).map
           (fun r => .addNsgSecurityRulesC "g1" [r])) :=
  spec_C9_nsg_rules_not_transactional.2 { tenancyId := "t" }
    { createNetworkSecurityGroup := fun _ => .ok { id := "g1" },
      addNsgSecurityRulesC := fun _ rs =>
        if rs = [SecRuleC.mk "EGRESS" "6" none none none none none] then
          .error { statusCode := some 500 }
        else .ok () }
    (NsgCreateData.mk "c1" "v1" "nsg1"
      (some [SecRuleC.mk "INGRESS" "6" none none none none none,
             SecRuleC.mk "EGRESS" "6" none none none none none]))
    { id := "g1" }
    [SecRuleC.mk "INGRESS" "6" none none none none none] []
    (SecRuleC.mk "EGRESS" "6" none none none none none)
    { statusCode := some 500 }
    rfl rfl
    (by intro r hr; simp at hr; subst hr; rfl)
    rfl

end OCIMCp

namespace OCIMCp

theorem getAllPagesAux_ok {α : Type} (backend : Option String → List α × Option String)
    (maxItems B : Nat) (hne : ∀ p, (backend p).1 ≠ []) (hb : ∀ p, (backend p).1.length ≤ B) :
    ∀ (fuel : Nat) (acc : List α) (page : Option String),
    maxItems ≤ acc.length + fuel → acc.length < maxItems →
    ∃ res calls, getAllPagesAux backend maxItems fuel acc page = some (res, calls) ∧
      res.length < maxItems + B ∧ calls ≤ maxItems - acc.length := by
  intro fuel
  induction fuel with
  | zero => intro acc page hle hlt; omega
  | succ n ih =>
    intro acc page hle hlt
    have hne' : 0 < (backend page).1.length := List.length_pos.mpr (hne page)
    have hb' := hb page
    by_cases hc : maxItems ≤ acc.length + (backend page).1.length
    · refine ⟨acc ++ (backend page).1, 1, ?_, ?_, by omega⟩
      · simp [getAllPagesAux, List.length_append, hc]
      · simp only [List.length_append]; omega
    · cases hnext : (backend page).2 with
      | none =>
        refine ⟨acc ++ (backend page).1, 1, ?_, ?_, by omega⟩
        · simp [getAllPagesAux, List.length_append, hc, hnext]
        · simp only [List.length_append]; omega
      | some t =>
        by_cases ht : t = ""
        · subst ht
          refine ⟨acc ++ (backend page).1, 1, ?_, ?_, by omega⟩
          · simp [getAllPagesAux, List.length_append, hc, hnext]
          · simp only [List.length_append]; omega
        · obtain ⟨res, calls, hrec, hres, hcalls⟩ :=
            ih (acc ++ (backend page).1) (some t)
              (by simp only [List.length_append]; omega)
              (by simp only [List.length_append]; omega)
          refine ⟨res, calls + 1, ?_, hres, ?_⟩
          · simp [getAllPagesAux, List.length_append, hc, hnext, ht, hrec]
          · have h2 := hcalls
            simp only [List.length_append] at h2
            omega

theorem emptyPagesAux_none (maxItems : Nat) :
    ∀ (fuel : Nat) (acc : List Unit) (page : Option String), acc.length < maxItems →
    getAllPagesAux (fun _ => (([] : List Unit), some "t")) maxItems fuel acc page = none := by
  intro fuel
  induction fuel with
  | zero => intro acc page _; rfl
  | succ n ih =>
    intro acc page hlt
    have hc : ¬ maxItems ≤ (acc ++ ([] : List Unit)).length := by simp; omega
    simp only [getAllPagesAux]
    simp [hc, ih acc (some "t") hlt]
    omega

/-- Claim C10: the helper `getAllPages` terminates whenever every fetched page is
non-empty: it stops as soon as the accumulated item count reaches `maxItems`,
so with pages of size at most `B` the returned list has fewer than
`maxItems + B` items and at most `maxItems` backend calls are issued (no
further call happens once the cap is reached). If the backend returns empty
pages that still carry a next-page token, the loop makes no progress and
never terminates (it exhausts any finite fuel), since the cap only triggers
on accumulated items. -/
theorem spec_C10_pagination :
    (∀ (α : Type) (backend : Option String → List α × Option String) (maxItems B : Nat),
      1 ≤ maxItems →
      (∀ p, (backend p).1 ≠ []) →
      (∀ p, (backend p).1.length ≤ B) →
      ∃ res calls, getAllPages backend maxItems = some (res, calls) ∧
        res.length < maxItems + B ∧ calls ≤ maxItems)
  ∧ (∀ (fuel maxItems : Nat), 1 ≤ maxItems →
      getAllPagesAux (fun _ => (([] : List Unit), some "t")) maxItems fuel [] none = none) := by
  constructor
  · intro α backend maxItems B hmax hne hb
    obtain ⟨res, calls, hrun, hres, hcalls⟩ :=
      getAllPagesAux_ok backend maxItems B hne hb (maxItems + 1) [] none (by simp) (by simpa)
    exact ⟨res, calls, hrun, hres, by omega⟩
  · intro fuel maxItems hmax
    exact emptyPagesAux_none maxItems fuel [] none (by simpa)

/-- Witness for C10: a constant one-item page with an endless token chain
terminates exactly at the cap, and the empty-page backend diverges. -/
theorem spec_C10_witness :
    (∃ res calls, getAllPages (fun _ => (([()] : List Unit), some "t")) 3 = some (res, calls) ∧
        res.length < 3 + 1 ∧ calls ≤ 3)
    ∧ getAllPagesAux (fun _ => (([] : List Unit), some "t")) 1000 5 [] none = none :=
  ⟨spec_C10_pagination.1 Unit (fun _ => ([()], some "t")) 3 1 (by decide)
      (fun _ => by simp) (fun _ => by simp),
   spec_C10_pagination.2 5 1000 (by decide)⟩

end OCIMCp

namespace OCIMCp

/-- A compute backend collaborator every one of whose operations rejects with
the same error `e` (used to state the business-failure half of the
protocol/business distinction). -/
def allRejectC (e : ErrJS) : CBackend :=
  { listInstances := fun _ => .error e
    listImages := fun _ => .error e
    listShapes := fun _ => .error e
    listVolumes := fun _ => .error e
    listVolumeAttachments := fun _ => .error e
    getInstance := fun _ => .error e
    getImage := fun _ => .error e
    getVolume := fun _ => .error e
    getVolumeAttachment := fun _ => .error e
    launchInstance := fun _ => .error e
    createVolume := fun _ => .error e
    instanceAction := fun _ _ => .error e
    terminateInstance := fun _ => .error e
    attachVolume := fun _ => .error e
    detachVolume := fun _ => .error e }

theorem cDispatch_allReject (cfg : AuthCfg) (e : ErrJS) (now : Nat) (input : CInput) :
    ∃ e2, (cDispatch cfg (allRejectC e) now input).1 = .error e2 := by
  cases input with
  | list i =>
    rcases i with ⟨rt, c, ad, l, dn, ls⟩
    cases rt <;> simp [cDispatch, cListResources, allRejectC]
  | get t rid =>
    cases t <;> simp [cDispatch, cGetResource, allRejectC]
  | create t d =>
    cases t <;> simp [cDispatch, cCreateResource, allRejectC]
  | manage i =>
    rcases i with ⟨a, rt, rid, iid, vid⟩
    cases a <;>
      simp [cDispatch, cManageInstance, cManageVolume, allRejectC] <;>
      (try split) <;> simp

theorem cExec_allReject (cfg : AuthCfg) (e : ErrJS) (now : Nat) (input : CInput) :
    (cExecute cfg (allRejectC e) now input).1.success = false := by
  obtain ⟨e2, he⟩ := cDispatch_allReject cfg e now input
  unfold cExecute
  split
  · rename_i env tr heq
    rw [heq] at he
    simp at he
  · rfl


/-- A storage-network backend collaborator every one of whose operations
rejects with the same error `e`. -/
def allRejectS (e : ErrJS) : SBackend :=
  { getNamespace := fun _ => .error e
    listBuckets := fun _ => .error e
    listObjects := fun _ => .error e
    listVcns := fun _ => .error e
    listSubnets := fun _ => .error e
    listSecurityLists := fun _ => .error e
    listRouteTables := fun _ => .error e
    listInternetGateways := fun _ => .error e
    listNatGateways := fun _ => .error e
    listLoadBalancers := fun _ => .error e
    getBucket := fun _ _ => .error e
    getObject := fun _ _ _ => .error e
    getVcn := fun _ => .error e
    getSubnet := fun _ => .error e
    getSecurityListS := fun _ => .error e
    createBucket := fun _ => .error e
    createVcn := fun _ => .error e
    createSubnet := fun _ => .error e
    createInternetGateway := fun _ => .error e
    putObject := fun _ => .error e
    deleteObject := fun _ _ _ => .error e
    deleteBucket := fun _ _ => .error e
    deleteVcn := fun _ => .error e }

/-- A database backend collaborator every one of whose operations rejects
with the same error `e`. -/
def allRejectDb (e : ErrJS) : DbBackend :=
  { listDbSystems := fun _ => .error e
    listAutonomousDatabases := fun _ => .error e
    listDatabases := fun _ => .error e
    listDbHomes := fun _ => .error e
    listDbNodes := fun _ => .error e
    listBackups := fun _ => .error e
    getDbSystem := fun _ => .error e
    getAutonomousDatabase := fun _ => .error e
    getDatabase := fun _ => .error e
    getDbHome := fun _ => .error e
    getBackup := fun _ => .error e
    createAutonomousDatabase := fun _ => .error e
    createDatabase := fun _ => .error e
    createBackup := fun _ => .error e
    startAutonomousDatabase := fun _ => .error e
    stopAutonomousDatabase := fun _ => .error e
    updateAutonomousDatabase := fun _ _ => .error e
    createAutonomousDatabaseClone := fun _ => .error e
    deleteBackup := fun _ => .error e }

/-- A monitoring-security backend collaborator every one of whose operations
rejects with the same error `e`. -/
def allRejectM (e : ErrJS) : MBackend :=
  { listAlarms := fun _ => .error e
    listMetrics := fun _ => .error e
    summarizeMetricsData := fun _ => .error e
    listLogGroups := fun _ => .error e
    listNetworkSecurityGroups := fun _ => .error e
    listSecurityLists := fun _ => .error e
    listUsers := fun _ => .error e
    listGroups := fun _ => .error e
    listPolicies := fun _ => .error e
    getAlarm := fun _ => .error e
    getLogGroup := fun _ => .error e
    getNetworkSecurityGroup := fun _ => .error e
    getSecurityList := fun _ => .error e
    getUser := fun _ => .error e
    getGroup := fun _ => .error e
    getPolicy := fun _ => .error e
    createAlarm := fun _ => .error e
    createLogGroup := fun _ => .error e
    createNetworkSecurityGroup := fun _ => .error e
    addNsgSecurityRulesC := fun _ _ => .error e
    addNsgSecurityRulesM := fun _ _ => .error e
    createUser := fun _ => .error e
    createGroup := fun _ => .error e
    createPolicy := fun _ => .error e
    updateAlarm := fun _ _ => .error e
    deleteAlarm := fun _ => .error e
    addUserToGroup := fun _ _ => .error e
    removeUserFromGroup := fun _ => .error e }

theorem sDispatch_allReject (cfg : AuthCfg) (e : ErrJS) (now : Nat) (input : SInput) :
    ∃ e2, (sDispatch cfg (allRejectS e) now input).1 = .error e2 := by
  cases input with
  | list i =>
    rcases i with ⟨rt, c, ns, bn, v, l, dn⟩
    cases rt <;>
      simp [sDispatch, sListResources, resolveNs, allRejectS] <;>
      (try split) <;> (try simp [allRejectS]) <;> (try split) <;> simp [allRejectS]
  | get i =>
    rcases i with ⟨rt, rid, ns, bn, obn⟩
    cases rt <;>
      simp [sDispatch, sGetResource, resolveNs, allRejectS] <;>
      (try split) <;> (try simp [allRejectS]) <;> (try split) <;> simp [allRejectS]
  | create t d =>
    cases t <;> simp [sDispatch, sCreateResource, allRejectS]
  | manage i =>
    rcases i with ⟨a, rt, rid, ns, bn, obn, oc, ct, sr⟩
    cases a <;>
      simp [sDispatch, sManageObject, sManageResource, resolveNs, allRejectS] <;>
      (try split) <;> (try simp [allRejectS]) <;> (try split) <;> simp [allRejectS]

theorem dbDispatch_allReject (cfg : AuthCfg) (e : ErrJS) (now : Nat) (input : DbInput) :
    ∃ e2, (dbDispatch cfg (allRejectDb e) now input).1 = .error e2 := by
  cases input with
  | list i =>
    rcases i with ⟨rt, c, ds, dh, l, dn, ls⟩
    cases rt <;>
      simp [dbDispatch, dbListResources, allRejectDb] <;>
      (try split) <;> simp [allRejectDb]
  | get t rid =>
    cases t <;> simp [dbDispatch, dbGetResource, allRejectDb]
  | create t d =>
    cases t <;> simp [dbDispatch, dbCreateResource, allRejectDb]
  | manage i =>
    rcases i with ⟨a, rt, rid, cc, dst, ts, bi, cn, tc⟩
    cases a <;>
      simp [dbDispatch, dbManageResource, allRejectDb] <;>
      (try split) <;> simp [allRejectDb]

theorem mDispatch_allReject (cfg : AuthCfg) (e : ErrJS) (input : MInput) :
    ∃ e2, (mDispatch cfg (allRejectM e) input).1 = .error e2 := by
  cases input with
  | list i =>
    rcases i with ⟨rt, c, mn, lg, v, va, st, et, l, dn⟩
    cases rt <;>
      simp [mDispatch, mListResources, allRejectM] <;>
      (try split) <;> simp [allRejectM]
  | get t rid lg sn =>
    cases t <;> simp [mDispatch, mGetResource, allRejectM]
  | create t d =>
    cases t <;> simp [mDispatch, mCreateResource, allRejectM]
  | manage i =>
    rcases i with ⟨a, rt, rid, sr, sc, ui, gi, pi, q, sv, en⟩
    cases a <;>
      simp [mDispatch, mManageResource, allRejectM] <;>
      (try split) <;> simp [allRejectM]

theorem sExec_allReject (cfg : AuthCfg) (e : ErrJS) (now : Nat) (input : SInput) :
    (sExecute cfg (allRejectS e) now input).1.success = false := by
  obtain ⟨e2, he⟩ := sDispatch_allReject cfg e now input
  unfold sExecute
  split
  · rename_i env tr heq
    rw [heq] at he
    simp at he
  · rfl

theorem dbExec_allReject (cfg : AuthCfg) (e : ErrJS) (now : Nat) (input : DbInput) :
    (dbExecute cfg (allRejectDb e) now input).1.success = false := by
  obtain ⟨e2, he⟩ := dbDispatch_allReject cfg e now input
  unfold dbExecute
  split
  · rename_i env tr heq
    rw [heq] at he
    simp at he
  · rfl

theorem mExec_allReject (cfg : AuthCfg) (e : ErrJS) (input : MInput) :
    (mExecute cfg (allRejectM e) input).1.success = false := by
  obtain ⟨e2, he⟩ := mDispatch_allReject cfg e input
  unfold mExecute
  split
  · rename_i env tr heq
    rw [heq] at he
    simp at he
  · rfl

end OCIMCp

namespace OCIMCp

/-- Claim C1: at the top-level server, for every inbound tool call:
(1) a call naming an undeclared tool yields a "method not found" RPC-level
error; (2) a call naming any of the four declared tools whose argument bag
fails that tool's input-union validation yields an "invalid params" RPC-level
error carrying that tool's message prefix; (3) a validated call to any of the
four declared tools against a rejecting backend yields a normal RPC success
(`.ok`) whose payload envelope carries `success = false`; and (4) the
outcomes are mutually exclusive — the two RPC error codes differ and an RPC
error is never an RPC success. -/
theorem spec_C1_protocol_vs_business :
    (∀ (parseC : J → Except String CInput) (parseS : J → Except String SInput)
        (parseD : J → Except String DbInput) (parseM : J → Except String MInput)
        (cfg : AuthCfg) (bc : CBackend) (bs : SBackend) (bd : DbBackend) (bm : MBackend)
        (now : Nat) (name : String) (args : J),
      name ≠ "oci-compute" → name ≠ "oci-storage-network" →
      name ≠ "oci-database-analytics" → name ≠ "oci-monitoring-security" →
      callToolHandler parseC parseS parseD parseM cfg bc bs bd bm now name args =
        .error { code := .methodNotFound, message := "Unknown tool: " ++ name })
  ∧ ((∀ (parseC : J → Except String CInput) (parseS : J → Except String SInput)
        (parseD : J → Except String DbInput) (parseM : J → Except String MInput)
        (cfg : AuthCfg) (bc : CBackend) (bs : SBackend) (bd : DbBackend) (bm : MBackend)
        (now : Nat) (args : J) (m : String),
      parseC args = .error m →
      callToolHandler parseC parseS parseD parseM cfg bc bs bd bm now "oci-compute" args =
        .error { code := .invalidParams, message := "Invalid compute tool input: " ++ m })
    ∧ (∀ (parseC : J → Except String CInput) (parseS : J → Except String SInput)
        (parseD : J → Except String DbInput) (parseM : J → Except String MInput)
        (cfg : AuthCfg) (bc : CBackend) (bs : SBackend) (bd : DbBackend) (bm : MBackend)
        (now : Nat) (args : J) (m : String),
      parseS args = .error m →
      callToolHandler parseC parseS parseD parseM cfg bc bs bd bm now
          "oci-storage-network" args =
        .error { code := .invalidParams, message := "Invalid storage/network tool input: " ++ m })
    ∧ (∀ (parseC : J → Except String CInput) (parseS : J → Except String SInput)
        (parseD : J → Except String DbInput) (parseM : J → Except String MInput)
        (cfg : AuthCfg) (bc : CBackend) (bs : SBackend) (bd : DbBackend) (bm : MBackend)
        (now : Nat) (args : J) (m : String),
      parseD args = .error m →
      callToolHandler parseC parseS parseD parseM cfg bc bs bd bm now
          "oci-database-analytics" args =
        .error { code := .invalidParams,
                 message := "Invalid database/analytics tool input: " ++ m })
    ∧ (∀ (parseC : J → Except String CInput) (parseS : J → Except String SInput)
        (parseD : J → Except String DbInput) (parseM : J → Except String MInput)
        (cfg : AuthCfg) (bc : CBackend) (bs : SBackend) (bd : DbBackend) (bm : MBackend)
        (now : Nat) (args : J) (m : String),
      parseM args = .error m →
      callToolHandler parseC parseS parseD parseM cfg bc bs bd bm now
          "oci-monitoring-security" args =
        .error { code := .invalidParams,
                 message := "Invalid monitoring/security tool input: " ++ m }))
  ∧ ((∀ (parseC : J → Except String CInput) (parseS : J → Except String SInput)
        (parseD : J → Except String DbInput) (parseM : J → Except String MInput)
        (cfg : AuthCfg) (bs : SBackend) (bd : DbBackend) (bm : MBackend)
        (now : Nat) (args : J) (input : CInput) (e : ErrJS),
      parseC args = .ok input →
      callToolHandler parseC parseS parseD parseM cfg (allRejectC e) bs bd bm now
          "oci-compute" args =
        .ok { content := [(cExecute cfg (allRejectC e) now input).1] }
      ∧ (cExecute cfg (allRejectC e) now input).1.success = false)
    ∧ (∀ (parseC : J → Except String CInput) (parseS : J → Except String SInput)
        (parseD : J → Except String DbInput) (parseM : J → Except String MInput)
        (cfg : AuthCfg) (bc : CBackend) (bd : DbBackend) (bm : MBackend)
        (now : Nat) (args : J) (input : SInput) (e : ErrJS),
      parseS args = .ok input →
      callToolHandler parseC parseS parseD parseM cfg bc (allRejectS e) bd bm now
          "oci-storage-network" args =
        .ok { content := [(sExecute cfg (allRejectS e) now input).1] }
      ∧ (sExecute cfg (allRejectS e) now input).1.success = false)
    ∧ (∀ (parseC : J → Except String CInput) (parseS : J → Except String SInput)
        (parseD : J → Except String DbInput) (parseM : J → Except String MInput)
        (cfg : AuthCfg) (bc : CBackend) (bs : SBackend) (bm : MBackend)
        (now : Nat) (args : J) (input : DbInput) (e : ErrJS),
      parseD args = .ok input →
      callToolHandler parseC parseS parseD parseM cfg bc bs (allRejectDb e) bm now
          "oci-database-analytics" args =
        .ok { content := [(dbExecute cfg (allRejectDb e) now input).1] }
      ∧ (dbExecute cfg (allRejectDb e) now input).1.success = false)
    ∧ (∀ (parseC : J → Except String CInput) (parseS : J → Except String SInput)
        (parseD : J → Except String DbInput) (parseM : J → Except String MInput)
        (cfg : AuthCfg) (bc : CBackend) (bs : SBackend) (bd : DbBackend)
        (now : Nat) (args : J) (input : MInput) (e : ErrJS),
      parseM args = .ok input →
      callToolHandler parseC parseS parseD parseM cfg bc bs bd (allRejectM e) now
          "oci-monitoring-security" args =
        .ok { content := [(mExecute cfg (allRejectM e) input).1] }
      ∧ (mExecute cfg (allRejectM e) input).1.success = false))
  ∧ (McpErrorCode.methodNotFound ≠ McpErrorCode.invalidParams
      ∧ ∀ (x : McpError) (r : ToolResult),
          (Except.error x : Except McpError ToolResult) ≠ .ok r) := by
  refine ⟨?_, ⟨?_, ?_, ?_, ?_⟩, ⟨?_, ?_, ?_, ?_⟩, by decide,
          fun x r h => Except.noConfusion h⟩
  · intro parseC parseS parseD parseM cfg bc bs bd bm now name args h1 h2 h3 h4
    unfold callToolHandler
    rw [if_neg h1, if_neg h2, if_neg h3, if_neg h4]
  · intro parseC parseS parseD parseM cfg bc bs bd bm now args m hparse
    unfold callToolHandler
    rw [if_pos rfl]
    simp [handleDomainTool, hparse]
  · intro parseC parseS parseD parseM cfg bc bs bd bm now args m hparse
    unfold callToolHandler
    rw [if_neg (by decide), if_pos rfl]
    simp [handleDomainTool, hparse]
  · intro parseC parseS parseD parseM cfg bc bs bd bm now args m hparse
    unfold callToolHandler
    rw [if_neg (by decide), if_neg (by decide), if_pos rfl]
    simp [handleDomainTool, hparse]
  · intro parseC parseS parseD parseM cfg bc bs bd bm now args m hparse
    unfold callToolHandler
    rw [if_neg (by decide), if_neg (by decide), if_neg (by decide), if_pos rfl]
    simp [handleDomainTool, hparse]
  · intro parseC parseS parseD parseM cfg bs bd bm now args input e hparse
    refine ⟨?_, cExec_allReject cfg e now input⟩
    unfold callToolHandler
    rw [if_pos rfl]
    simp [handleDomainTool, hparse]
  · intro parseC parseS parseD parseM cfg bc bd bm now args input e hparse
    refine ⟨?_, sExec_allReject cfg e now input⟩
    unfold callToolHandler
    rw [if_neg (by decide), if_pos rfl]
    simp [handleDomainTool, hparse]
  · intro parseC parseS parseD parseM cfg bc bs bm now args input e hparse
    refine ⟨?_, dbExec_allReject cfg e now input⟩
    unfold callToolHandler
    rw [if_neg (by decide), if_neg (by decide), if_pos rfl]
    simp [handleDomainTool, hparse]
  · intro parseC parseS parseD parseM cfg bc bs bd now args input e hparse
    refine ⟨?_, mExec_allReject cfg e input⟩
    unfold callToolHandler
    rw [if_neg (by decide), if_neg (by decide), if_neg (by decide), if_pos rfl]
    simp [handleDomainTool, hparse]

end OCIMCp

namespace OCIMCp

/-- Witness for C1: the method-not-found outcome, the invalid-params outcome
for each of the four declared tools, and the backend-rejection outcome for
each of the four declared tools, at concrete calls. -/
theorem spec_C1_witness :
    callToolHandler (fun _ => .error "bad") (fun _ => .error "bad") (fun _ => .error "bad")
        (fun _ => .error "bad") { tenancyId := "t" } {} {} {} {} 0 "bogus" J.null =
      .error { code := .methodNotFound, message := "Unknown tool: " ++ "bogus" }
  ∧ callToolHandler (fun _ => .error "bad") (fun _ => .error "bad") (fun _ => .error "bad")
        (fun _ => .error "bad") { tenancyId := "t" } {} {} {} {} 0 "oci-compute" J.null =
      .error { code := .invalidParams, message := "Invalid compute tool input: " ++ "bad" }
  ∧ callToolHandler (fun _ => .error "bad") (fun _ => .error "bad") (fun _ => .error "bad")
        (fun _ => .error "bad") { tenancyId := "t" } {} {} {} {} 0 "oci-storage-network" J.null =
      .error { code := .invalidParams, message := "Invalid storage/network tool input: " ++ "bad" }
  ∧ callToolHandler (fun _ => .error "bad") (fun _ => .error "bad") (fun _ => .error "bad")
        (fun _ => .error "bad") { tenancyId := "t" } {} {} {} {} 0
        "oci-database-analytics" J.null =
      .error { code := .invalidParams, message := "Invalid database/analytics tool input: " ++ "bad" }
  ∧ callToolHandler (fun _ => .error "bad") (fun _ => .error "bad") (fun _ => .error "bad")
        (fun _ => .error "bad") { tenancyId := "t" } {} {} {} {} 0
        "oci-monitoring-security" J.null =
      .error { code := .invalidParams, message := "Invalid monitoring/security tool input: " ++ "bad" }
  ∧ (callToolHandler (fun _ => .ok (.get .instance_ "i1")) (fun _ => .error "bad")
        (fun _ => .error "bad") (fun _ => .error "bad") { tenancyId := "t" }
        (allRejectC { statusCode := some 404, message := some "NotFound" }) {} {} {} 0
        "oci-compute" J.null =
      .ok { content := [(cExecute { tenancyId := "t" }
              (allRejectC { statusCode := some 404, message := some "NotFound" }) 0
              (.get .instance_ "i1")).1] }
    ∧ (cExecute { tenancyId := "t" }
          (allRejectC { statusCode := some 404, message := some "NotFound" }) 0
          (.get .instance_ "i1")).1.success = false)
  ∧ (callToolHandler (fun _ => .error "bad")
        (fun _ => .ok (.get { resourceType := .vcn, resourceId := "v1" }))
        (fun _ => .error "bad") (fun _ => .error "bad") { tenancyId := "t" } {}
        (allRejectS { statusCode := some 404, message := some "NotFound" }) {} {} 0
        "oci-storage-network" J.null =
      .ok { content := [(sExecute { tenancyId := "t" }
              (allRejectS { statusCode := some 404, message := some "NotFound" }) 0
              (.get { resourceType := .vcn, resourceId := "v1" })).1] }
    ∧ (sExecute { tenancyId := "t" }
          (allRejectS { statusCode := some 404, message := some "NotFound" }) 0
          (.get { resourceType := .vcn, resourceId := "v1" })).1.success = false)
  ∧ (callToolHandler (fun _ => .error "bad") (fun _ => .error "bad")
        (fun _ => .ok (.get .database "d1")) (fun _ => .error "bad") { tenancyId := "t" } {} {}
        (allRejectDb { statusCode := some 404, message := some "NotFound" }) {} 0
        "oci-database-analytics" J.null =
      .ok { content := [(dbExecute { tenancyId := "t" }
              (allRejectDb { statusCode := some 404, message := some "NotFound" }) 0
              (.get .database "d1")).1] }
    ∧ (dbExecute { tenancyId := "t" }
          (allRejectDb { statusCode := some 404, message := some "NotFound" }) 0
          (.get .database "d1")).1.success = false)
  ∧ (callToolHandler (fun _ => .error "bad") (fun _ => .error "bad") (fun _ => .error "bad")
        (fun _ => .ok (.get .alarm "a1" none none)) { tenancyId := "t" } {} {} {}
        (allRejectM { statusCode := some 404, message := some "NotFound" }) 0
        "oci-monitoring-security" J.null =
      .ok { content := [(mExecute { tenancyId := "t" }
              (allRejectM { statusCode := some 404, message := some "NotFound" })
              (.get .alarm "a1" none none)).1] }
    ∧ (mExecute { tenancyId := "t" }
          (allRejectM { statusCode := some 404, message := some "NotFound" })
          (.get .alarm "a1" none none)).1.success = false) :=
  ⟨spec_C1_protocol_vs_business.1 (fun _ => .error "bad") (fun _ => .error "bad")
     (fun _ => .error "bad") (fun _ => .error "bad") { tenancyId := "t" } {} {} {} {} 0
     "bogus" J.null (by decide) (by decide) (by decide) (by decide),
   spec_C1_protocol_vs_business.2.1.1 (fun _ => .error "bad") (fun _ => .error "bad")
     (fun _ => .error "bad") (fun _ => .error "bad") { tenancyId := "t" } {} {} {} {} 0
     J.null "bad" rfl,
   spec_C1_protocol_vs_business.2.1.2.1 (fun _ => .error "bad") (fun _ => .error "bad")
     (fun _ => .error "bad") (fun _ => .error "bad") { tenancyId := "t" } {} {} {} {} 0
     J.null "bad" rfl,
   spec_C1_protocol_vs_business.2.1.2.2.1 (fun _ => .error "bad") (fun _ => .error "bad")
     (fun _ => .error "bad") (fun _ => .error "bad") { tenancyId := "t" } {} {} {} {} 0
     J.null "bad" rfl,
   spec_C1_protocol_vs_business.2.1.2.2.2 (fun _ => .error "bad") (fun _ => .error "bad")
     (fun _ => .error "bad") (fun _ => .error "bad") { tenancyId := "t" } {} {} {} {} 0
     J.null "bad" rfl,
   spec_C1_protocol_vs_business.2.2.1.1 (fun _ => .ok (.get .instance_ "i1"))
     (fun _ => .error "bad") (fun _ => .error "bad") (fun _ => .error "bad") { tenancyId := "t" }
     {} {} {} 0 J.null (.get .instance_ "i1")
     { statusCode := some 404, message := some "NotFound" } rfl,
   spec_C1_protocol_vs_business.2.2.1.2.1 (fun _ => .error "bad")
     (fun _ => .ok (.get { resourceType := .vcn, resourceId := "v1" }))
     (fun _ => .error "bad") (fun _ => .error "bad") { tenancyId := "t" }
     {} {} {} 0 J.null (.get { resourceType := .vcn, resourceId := "v1" })
     { statusCode := some 404, message := some "NotFound" } rfl,
   spec_C1_protocol_vs_business.2.2.1.2.2.1 (fun _ => .error "bad") (fun _ => .error "bad")
     (fun _ => .ok (.get .database "d1")) (fun _ => .error "bad") { tenancyId := "t" }
     {} {} {} 0 J.null (.get .database "d1")
     { statusCode := some 404, message := some "NotFound" } rfl,
   spec_C1_protocol_vs_business.2.2.1.2.2.2 (fun _ => .error "bad") (fun _ => .error "bad")
     (fun _ => .error "bad") (fun _ => .ok (.get .alarm "a1" none none)) { tenancyId := "t" }
     {} {} {} 0 J.null (.get .alarm "a1" none none)
     { statusCode := some 404, message := some "NotFound" } rfl⟩

end OCIMCp
